import Mathlib

/-!
Verification of the conversational-agent orchestration core of the
drag_and_drop repository: a shallow embedding of the validator
(src/validation.py), exit-condition evaluator and tool-config utilities
(src/utilities.py), tool registry/executor (src/tools.py), the decision
router and related graph nodes (src/nodes.py, src/graph_builder.py), and
the question-generation fallback chain (src/llamaindex_agent.py).

Modelling conventions:
- Python dict values are modelled by `PyVal`; dictionaries keyed by strings
  are association lists (`StrDict`) with in-place update, mirroring Python
  insertion-ordered dicts with unique keys.
- External primitives (the LLM completion, HTTP requests, SMTP, gspread,
  Tavily, and Python's numeric `int()`/`float()` string parsing and float
  printing) are passed in as explicit oracle parameters, so every modelled
  function is a pure function of its inputs and its oracle answers.
- Python exceptions are modelled with `Option`/`Except`: a raised
  exception inside a `try` block becomes a distinguished constructor, and
  a function that can propagate an exception to its caller returns
  `Except String _`.
- String whitespace handling follows Python's ASCII whitespace set.
-/

namespace DragDrop

/-- Python runtime values as they occur in this pipeline: `None`, strings,
ints, floats (represented by rationals; parsing/printing is an oracle),
and lists of strings (extracted JSON lists). -/
inductive PyVal where
  | vnone
  | vstr (s : String)
  | vint (n : Int)
  | vfloat (q : Rat)
  | vlist (l : List String)
  deriving DecidableEq, Repr

open PyVal

/-- Python ASCII whitespace characters (the set matched by `str.strip()`
and by the regex class backslash-s over ASCII text). -/
def isPySpace (c : Char) : Bool :=
  c = ' ' || c = '\t' || c = '\n' || c = '\r' || c = '\x0b' || c = '\x0c'

/-- `str.strip()` on a character list. -/
def stripChars (cs : List Char) : List Char :=
  ((cs.dropWhile isPySpace).reverse.dropWhile isPySpace).reverse

/-- Python `str.strip()`. -/
def pyStrip (s : String) : String :=
  String.mk (stripChars s.toList)

/-- Python truthiness (`bool(v)`) for the modelled values. -/
def pyTruthy : PyVal → Bool
  | vnone => false
  | vstr s => s ≠ ""
  | vint n => n ≠ 0
  | vfloat q => q ≠ 0
  | vlist l => l ≠ []

/-- String-keyed dictionary as an insertion-ordered association list. -/
abbrev StrDict := List (String × PyVal)

/-- `d.get(k)` / `d[k]` lookup: first matching key. -/
def dictGet (d : StrDict) (k : String) : Option PyVal :=
  match d with
  | [] => none
  | (k', v) :: t => if k' = k then some v else dictGet t k

/-- `d[k] = v`: update in place if the key exists, else append. -/
def dictSet (d : StrDict) (k : String) (v : PyVal) : StrDict :=
  match d with
  | [] => [(k, v)]
  | (k', v') :: t => if k' = k then (k, v) :: t else (k', v') :: dictSet t k v

/-- Keys of a dictionary. -/
def dictKeys (d : StrDict) : List String := d.map Prod.fst

/-- Oracles for Python numeric primitives used by the validator:
`int(s)` and `float(s)` on strings, and `str(x)` on a float. -/
structure NumPrims where
  intParse : String → Option Int
  floatParse : String → Option Rat
  floatRepr : Rat → String

/-- Python `str(v)` for the modelled values (float printing via oracle;
list printing follows the repr shape for simple string elements). -/
def pyStr (prims : NumPrims) : PyVal → String
  | vnone => "None"
  | vstr s => s
  | vint n => toString n
  | vfloat q => prims.floatRepr q
  | vlist l =>
      "[" ++ String.intercalate ", " (l.map (fun s => "'" ++ s ++ "'")) ++ "]"

/-- Split a character list on every occurrence of a separator. -/
def splitChars (sep : Char) : List Char → List (List Char)
  | [] => [[]]
  | c :: t =>
      let r := splitChars sep t
      if c = sep then [] :: r
      else
        match r with
        | h :: t2 => (c :: h) :: t2
        | [] => [[c]]

/-- Characters allowed by the class `[^@\s]` of EMAIL_REGEX. -/
def emailOkChar (c : Char) : Bool := c ≠ '@' && !isPySpace c

/-- Core match of `EMAIL_REGEX = ^[^@\s]+@[^@\s]+\.[^@\s]+$`
(src/validation.py line 7): exactly one `@`; a nonempty local part; a
nonempty domain containing a dot that is neither its first nor its last
character; no whitespace anywhere. -/
def emailCore (cs : List Char) : Bool :=
  match splitChars '@' cs with
  | [loc, dom] =>
      !loc.isEmpty && loc.all emailOkChar &&
      !dom.isEmpty && dom.all emailOkChar &&
      ((dom.drop 1).dropLast.contains '.')
  | _ => false

/-- `EMAIL_REGEX.match(s)`: the pattern is anchored at both ends, and
`$` also matches just before a single final newline. -/
def emailMatch (s : String) : Bool :=
  emailCore s.toList ||
    (match s.toList.getLast? with
     | some c => c = '\n' && emailCore s.toList.dropLast
     | none => false)

/-- A normalized schema field as consumed by `validate_against_schema`:
the result of `field.get("name")`, `bool(field.get("required", False))`,
`field.get("type", "string")` and `field.get("format")`. -/
structure SchemaField where
  name : Option String
  required : Bool
  ftype : String
  format : Option String
  description : String := ""
  deriving DecidableEq, Repr

/-- The f-string rendering of a possibly-missing field name. -/
def errName : Option String → String
  | none => "None"
  | some s => s

/-- The type-coercion block of `validate_against_schema`
(src/validation.py lines 141-152): `str(val).strip()` for `"string"`,
`int(val)` for `"int"`, `float(val)` for `"float"`, identity otherwise;
`none` models a raised coercion exception (caught by the caller). -/
def coerceVal (prims : NumPrims) (ftype : String) (v : PyVal) : Option PyVal :=
  if ftype = "string" then some (vstr (pyStrip (pyStr prims v)))
  else if ftype = "int" then
    match v with
    | vint n => some (vint n)
    | vfloat q => some (vint (Int.tdiv q.num (q.den : Int)))
    | vstr s => (prims.intParse s).map vint
    | _ => none
  else if ftype = "float" then
    match v with
    | vfloat q => some (vfloat q)
    | vint n => some (vfloat (n : Rat))
    | vstr s => (prims.floatParse s).map vfloat
    | _ => none
  else some v

/-- The missing/blank test of src/validation.py line 135:
`val is None or (isinstance(val, str) and not val.strip())`.
`none` is an absent key, `vnone` an explicit `None` value. -/
def isMissingVal : Option PyVal → Bool
  | none => true
  | some vnone => true
  | some (vstr s) => pyStrip s = ""
  | some _ => false

/-- One iteration of the field loop of `validate_against_schema`
(src/validation.py lines 128-160), acting on the `(validated, errors)`
accumulator.  When the field's name is `None`, `data.get(None)` is `None`
in a string-keyed dict, so only the required-error branch is reachable. -/
def validateField (prims : NumPrims) (data : StrDict)
    (acc : StrDict × List String) (field : SchemaField) :
    StrDict × List String :=
  match field.name with
  | none =>
      if field.required then (acc.1, acc.2 ++ ["None is required"]) else acc
  | some nm =>
      let val := dictGet data nm
      if isMissingVal val then
        if field.required then (acc.1, acc.2 ++ [nm ++ " is required"]) else acc
      else
        match val with
        | none => acc
        | some v =>
            match coerceVal prims field.ftype v with
            | none =>
                (acc.1, acc.2 ++ [nm ++ " failed to coerce to " ++ field.ftype])
            | some w =>
                if field.format = some "email" && !emailMatch (pyStr prims w) then
                  (acc.1, acc.2 ++ [nm ++ " must be a valid email"])
                else
                  (dictSet acc.1 nm w, acc.2)

/-- The field loop of `validate_against_schema`, threaded over the schema. -/
def runSchema (prims : NumPrims) (data : StrDict) :
    List SchemaField → StrDict × List String → StrDict × List String
  | [], acc => acc
  | f :: rest, acc => runSchema prims data rest (validateField prims data acc f)

/-- `validate_against_schema(data, schema)` (src/validation.py lines
119-162): validate and coerce `data` against `schema`, returning
`(validated, errors)`. -/
def validate_against_schema (prims : NumPrims) (data : StrDict)
    (schema : List SchemaField) : StrDict × List String :=
  runSchema prims data schema ([], [])

/-- Python `s.lower()` (ASCII case folding). -/
def lowerStr (s : String) : String := String.mk (s.toList.map Char.toLower)

/-- Python string `or`: the left operand unless it is falsy (empty). -/
def pyOr (a b : String) : String := if a = "" then b else a

/-- Does `hay` start with `pre`? -/
def startsWithChars : List Char → List Char → Bool
  | _, [] => true
  | [], _ :: _ => false
  | h :: t, p :: ps => h = p && startsWithChars t ps

/-- Python substring containment `sub in hay`. -/
def containsSub (sub : List Char) : List Char → Bool
  | [] => sub.isEmpty
  | c :: t => startsWithChars (c :: t) sub || containsSub sub t

/-- Python `sub in hay` on strings. -/
def strContains (hay sub : String) : Bool := containsSub sub.toList hay.toList

/-- A chat message `{role, content}`. -/
structure Msg where
  role : String
  content : String
  deriving DecidableEq, Repr

/-- The uniform tool result envelope (the keys consulted by the state
machine: `success`, `type`, `message`, `error`, `summary`; the per-tool
payload keys such as `data`, `status_code` or `sheet_info` are never read
by the orchestration logic and are not modelled). -/
structure Envelope where
  success : Bool
  rtype : String
  message : String
  error : Option String
  summary : Option String
  deriving DecidableEq, Repr

/-- One `action_history` record as built by `track_action`
(src/utilities.py lines 198-218). -/
structure ActionRecord where
  step : Nat
  node : String
  transition : String
  outcome : String
  timestamp : Nat
  deriving DecidableEq, Repr

/-- The `decision_context` record built by `decision_router_node`
(src/nodes.py lines 718-724). -/
structure DecisionContext where
  user_intent : String
  available_data : StrDict
  tool_requirements : List (Option String)
  reasoning : String
  alternatives_considered : List String
  deriving DecidableEq, Repr

/-- The `ConversationState` TypedDict (src/models.py).  `chosen_tool` and
`tool_category` use `""` for both "unset" and Python `None` (the code only
ever tests their truthiness or copies them); `tool_result` is `none` when
absent or empty; `last_tool_context` is shallowly a string dict. -/
structure AgentState where
  messages : List Msg
  user_input : String
  extracted_data : StrDict
  query_spec : StrDict
  tool_result : Option Envelope
  last_tool_summary : String
  last_tool_context : StrDict
  next_action : String
  chosen_tool : String
  tool_category : String
  error_message : String
  conversation_active : Bool
  decision_justification : String
  decision_context : Option DecisionContext
  session_id : String
  action_history : List ActionRecord
  clarification_message : String
  validation_errors : List String
  deriving DecidableEq, Repr

/-- A property entry of a JSON-Schema-like `input_schema`
(`field_spec.get("type"/"format"/"description")`). -/
structure PropSpec where
  ptype : Option String
  pformat : Option String
  pdescription : Option String
  deriving DecidableEq, Repr

/-- A per-tool `input_schema` value: absent/falsy, an already-flat field
list, or a JSON-Schema-like object with `properties` and `required`. -/
inductive InputSchema where
  | absent
  | fieldList (fields : List SchemaField)
  | jsonSchema (properties : List (String × PropSpec)) (required : List String)
  deriving DecidableEq, Repr

/-- One entry of `config.tools`.  `enabled` is the value of
`tool.get("enabled", True)`; `config` is the per-tool `config` dict. -/
structure ToolCfg where
  name : Option String
  ttype : Option String
  impl : Option String
  enabled : Bool
  description : String
  input_schema : InputSchema
  config : StrDict
  deriving DecidableEq, Repr

/-- An exit-condition `expression` value: Python `None`, a string, an
int, a list of phrase strings, or a dict (for `tool_event`). -/
inductive ExitExpr where
  | enone
  | estr (s : String)
  | eint (n : Int)
  | elist (l : List String)
  | edict (entries : StrDict)
  deriving DecidableEq, Repr

/-- Python truthiness of an expression value. -/
def exprTruthy : ExitExpr → Bool
  | .enone => false
  | .estr s => s ≠ ""
  | .eint n => n ≠ 0
  | .elist l => l ≠ []
  | .edict d => d ≠ []

/-- One exit-condition descriptor `{type, expression}`; `ctype = none`
models a missing `type` key (and an explicit `None`, which behaves the
same in `evaluate`). -/
structure ExitCond where
  ctype : Option String
  expression : ExitExpr
  deriving DecidableEq, Repr

/-- The agent configuration keys consulted by the modelled code paths.
Prompt-text keys (`agent_prompt`, `required_fields`, `translation`) only
shape strings fed to the LLM oracle and are not modelled. -/
structure AgentConfig where
  tools : List ToolCfg
  tool_type : Option String
  credentials_path : Option String
  exit_conditions : List ExitCond
  exit_condition_mode : Option String
  deriving DecidableEq, Repr

/-! ### Exit condition evaluation (src/utilities.py lines 300-395)

`evaluate` and its matchers are modelled in `Except String Bool`: a value
`.error msg` is an uncaught Python exception propagating to the caller.
The regex engine behind `re.search` and Python `int()` parsing are
oracles. -/

/-- Oracle for `re.search(pattern, text, re.IGNORECASE)` truthiness;
a compilation error inside `prompt_matches` is caught and mapped to
`False` there, so a total Bool oracle suffices. -/
def RegexOracle := String → String → Bool

/-- `prompt_matches(expr, msgs)` (src/utilities.py lines 304-327).  A
truthy non-string `expr` reaches `expr.startswith("/")` and raises
`AttributeError`; that is the `.error` case. -/
def prompt_matches (rx : RegexOracle) (expr : ExitExpr) (msgs : List Msg) :
    Except String Bool :=
  if !exprTruthy expr || msgs.isEmpty then .ok false
  else
    let user_messages := (msgs.filter (fun m => m.role = "user")).map Msg.content
    match user_messages.getLast? with
    | none => .ok false
    | some lastMsg =>
        let lastLower := lowerStr lastMsg
        match expr with
        | .estr s =>
            let cs := s.toList
            if startsWithChars cs ['/'] &&
               startsWithChars cs.reverse ['/'] then
              .ok (rx (String.mk (cs.drop 1).dropLast) lastLower)
            else
              let phrases := (splitChars '|' cs).map
                (fun p => lowerStr (String.mk (stripChars p)))
              .ok (phrases.any (fun p => strContains lastLower p))
        | _ => .error "AttributeError: expression object has no attribute startswith"

/-- `logical_matches(expr, st)` (src/utilities.py lines 329-341). -/
def logical_matches (expr : ExitExpr) (st : AgentState) : Bool :=
  if !exprTruthy expr then false
  else if expr = .estr "is_data_complete" then st.extracted_data.length > 0
  else false

/-- `tool_event_matches(expr, st)` (src/utilities.py lines 343-362). -/
def tool_event_matches (expr : ExitExpr) (st : AgentState) : Bool :=
  match expr with
  | .edict entries =>
      if entries = [] then false
      else
        match st.tool_result with
        | none => false
        | some tr =>
            let toolOk :=
              match dictGet entries "tool" with
              | none => true
              | some ex => if pyTruthy ex then ex = vstr tr.rtype else true
            let statusOk :=
              match dictGet entries "status" with
              | none => true
              | some ex =>
                  if pyTruthy ex then tr.success = (ex = vstr "success") else true
            toolOk && statusOk
  | _ => false

/-- `max_turns_matches(expr, msgs)` (src/utilities.py lines 364-373);
`int()` on strings is the `NumPrims` oracle, and a parse failure is
caught and mapped to `False`. -/
def max_turns_matches (prims : NumPrims) (expr : ExitExpr) (msgs : List Msg) :
    Bool :=
  match expr with
  | .eint n => decide ((msgs.length : Int) ≥ n)
  | .estr s =>
      match prims.intParse s with
      | some n => decide ((msgs.length : Int) ≥ n)
      | none => false
  | _ => false

/-- `evaluate(cond, state, messages)` (src/utilities.py lines 375-395). -/
def evaluate (prims : NumPrims) (rx : RegexOracle) (cond : ExitCond)
    (state : AgentState) (messages : List Msg) : Except String Bool :=
  match cond.ctype with
  | none => .ok false
  | some t =>
      if t = "prompt" then prompt_matches rx cond.expression messages
      else if t = "logical" then .ok (logical_matches cond.expression state)
      else if t = "tool_event" then .ok (tool_event_matches cond.expression state)
      else if t = "max_turns" then
        .ok (max_turns_matches prims cond.expression messages)
      else .ok false

/-! ### Tool configuration utilities (src/utilities.py lines 8-158) -/

/-- First tool whose `name` equals `preferred` and which is enabled. -/
def findNamedEnabled (preferred : String) : List ToolCfg → Option ToolCfg
  | [] => none
  | t :: rest =>
      if t.name = some preferred && t.enabled then some t
      else findNamedEnabled preferred rest

/-- `get_selected_tool_config(config, state)` (src/utilities.py lines
8-22).  The returned name uses `""` for Python `None` (it is only ever
tested for truthiness or compared to string names downstream). -/
def get_selected_tool_config (config : AgentConfig) (state : AgentState) :
    String × Option ToolCfg :=
  let preferred :=
    pyOr state.chosen_tool (pyOr state.next_action (config.tool_type.getD ""))
  match (if preferred ≠ "" then findNamedEnabled preferred config.tools
         else none) with
  | some t => (preferred, some t)
  | none =>
      match config.tools.find? (fun t => t.enabled) with
      | some t => (t.name.getD "", some t)
      | none => (preferred, none)

/-- `get_tool_category(config, tool_name)` (src/utilities.py lines 24-30). -/
def get_tool_category (config : AgentConfig) (tool_name : String) : String :=
  match config.tools.find? (fun t => t.name = some tool_name) with
  | some t => pyOr (t.ttype.getD "") "input"
  | none => "input"

/-- `normalize_input_schema(input_schema)` (src/utilities.py lines
78-110): flat lists pass through; JSON-Schema objects are flattened
per-property (an empty `properties` dict is falsy and yields `[]`). -/
def normalize_input_schema : InputSchema → List SchemaField
  | .absent => []
  | .fieldList fields => fields
  | .jsonSchema properties required =>
      if properties = [] then []
      else properties.map (fun p =>
        { name := some p.1
          ftype := p.2.ptype.getD "string"
          required := required.contains p.1
          format := p.2.pformat
          description := p.2.pdescription.getD "" })

/-- Inner loop of `get_tool_requirements`: a matching tool returns only
from the `properties`-dict or list branches; a matching tool whose schema
is neither (e.g. an absent schema, defaulted to `{}`) falls through to
the next tool. -/
def toolRequirementsLoop (tool_name : String) : List ToolCfg → List (Option String)
  | [] => []
  | t :: rest =>
      if t.name = some tool_name then
        match t.input_schema with
        | .jsonSchema properties required =>
            if properties ≠ [] then required.map some
            else toolRequirementsLoop tool_name rest
        | .fieldList fields =>
            (fields.filter (fun f => f.required)).map SchemaField.name
        | .absent => toolRequirementsLoop tool_name rest
      else toolRequirementsLoop tool_name rest

/-- `get_tool_requirements(config, tool_name)` (src/utilities.py lines
112-127; duplicated in src/nodes.py lines 601-616). -/
def get_tool_requirements (config : AgentConfig) (tool_name : String) :
    List (Option String) :=
  if tool_name = "" then [] else toolRequirementsLoop tool_name config.tools

/-- `get_alternative_actions(config, extracted_data)` (src/utilities.py
lines 129-141): `["chat", "end"]` plus enabled tool names, with falsy
entries filtered out (the `extracted_data` argument is unused). -/
def get_alternative_actions (config : AgentConfig) (_extracted_data : StrDict) :
    List String :=
  (["chat", "end"] ++
    config.tools.filterMap
      (fun t => if t.enabled then some (t.name.getD "") else none)).filter
    (fun a => a ≠ "")

/-- `are_required_fields_complete(data, fields)` — the src/nodes.py
version (lines 29-39), which shadows the utilities one inside the nodes
module: every required named field must be present, non-`None`, and (for
strings) non-blank. -/
def are_required_fields_complete (data : StrDict) (fields : List SchemaField) :
    Bool :=
  fields.all fun f =>
    if f.required then
      match f.name with
      | none => true
      | some nm =>
          if nm = "" then true
          else
            match dictGet data nm with
            | none => false
            | some vnone => false
            | some (vstr s) => pyStrip s ≠ ""
            | some _ => true
    else true

/-! ### Action history (src/utilities.py lines 160-218)

`track_action` is invoked by `log_node_execution` on every node return
value; it uses the `summarize_outcome` defined in utilities.py (the
similarly named function in nodes.py shadows it only inside the nodes
module and is not the one `track_action` calls). -/

/-- First 50 characters of a string, Python `s[:50]`. -/
def take50 (s : String) : String := String.mk (s.toList.take 50)

/-- `summarize_outcome(old_state, new_state, node_name)`
(src/utilities.py lines 160-196). -/
def summarize_outcome (old_state new_state : AgentState) (node_name : String) :
    String :=
  if node_name = "STRUCTURED_EXTRACTOR" then
    if new_state.extracted_data ≠ [] ∧
        new_state.extracted_data.length > old_state.extracted_data.length then
      "Extracted " ++ toString new_state.extracted_data.length ++
        " field(s): " ++ String.intercalate ", " (dictKeys new_state.extracted_data)
    else "No new data extracted"
  else if node_name = "VALIDATE_INPUTS" then
    if new_state.validation_errors ≠ [] then
      "Validation failed: " ++ String.intercalate ", " new_state.validation_errors
    else "Validation passed"
  else if node_name = "TOOL_EXECUTION" then
    match new_state.tool_result with
    | some tr =>
        if tr.success then "Tool executed successfully: " ++ tr.message
        else "Tool execution failed: " ++ tr.error.getD "Unknown error"
    | none => "Tool execution failed: Unknown error"
  else if node_name = "CHAT_NODE" then
    match new_state.messages.getLast? with
    | some m =>
        if m.role = "assistant" then
          "Generated response: " ++ take50 m.content ++
            (if m.content.toList.length > 50 then "..." else "")
        else "No response generated"
    | none => "No response generated"
  else "Node " ++ node_name ++ " completed"

/-- `track_action(node_name, old_state, new_state)` (src/utilities.py
lines 198-218): append a record to the old state's history, truncate to
the last 5, and store it on the new state.  The `transition` string is a
display-only f-string over the dict's first key; it is never read by any
logic and is modelled by a fixed rendering. -/
def track_action (node_name : String) (old_state new_state : AgentState) :
    AgentState :=
  let record : ActionRecord :=
    { step := old_state.action_history.length + 1
      node := node_name
      transition := "state -> " ++ node_name
      outcome := summarize_outcome old_state new_state node_name
      timestamp := new_state.messages.length }
  let h := old_state.action_history ++ [record]
  { new_state with action_history := h.drop (h.length - 5) }

/-! ### Decision parsing (src/nodes.py lines 683-691)

`re.search(r"DECISION:\s*([\w\-_]+)\s*-\s*(.*)", llm_response,
re.IGNORECASE)` is modelled concretely: leftmost start position wins, the
token class is `[\w\-_]` (ASCII `\w` plus hyphen), and the greedy token
backtracks to an interior hyphen when no separator hyphen follows. -/

/-- Characters of the class `[\w\-_]` (ASCII). -/
def isWordChar (c : Char) : Bool := c.isAlphanum || c = '_' || c = '-'

/-- Case-insensitive literal match at the head: returns the rest. -/
def takeLiteralCI : List Char → List Char → Option (List Char)
  | [], rest => some rest
  | _ :: _, [] => none
  | p :: ps, c :: cs =>
      if p.toLower = c.toLower then takeLiteralCI ps cs else none

/-- Match `\s*-\s*` at the head: returns the rest after the separator. -/
def trySep (cs : List Char) : Option (List Char) :=
  match cs.dropWhile isPySpace with
  | '-' :: rest => some (rest.dropWhile isPySpace)
  | _ => none

/-- Rightmost hyphen split of a list: `some (before, after)` for the
last occurrence of `'-'`. -/
def lastDashAux : List Char → Option (List Char × List Char)
  | [] => none
  | c :: t =>
      match lastDashAux t with
      | some (t1, t2) => some (c :: t1, t2)
      | none => if c = '-' then some ([], t) else none

/-- Split a token run at its rightmost hyphen that has a nonempty part
before it (greedy backtracking of `([\w\-_]+)` against `\s*-\s*`). -/
def lastDashSplit : List Char → Option (List Char × List Char)
  | [] => none
  | c :: t => (lastDashAux t).map (fun p => (c :: p.1, p.2))

/-- Attempt the full pattern at the head of `cs`; on success return the
two capture groups (token, rest-of-line reason). -/
def matchDecisionAt (cs : List Char) : Option (List Char × List Char) :=
  match takeLiteralCI "DECISION:".toList cs with
  | none => none
  | some afterLit =>
      let afterWs := afterLit.dropWhile isPySpace
      let tok := afterWs.takeWhile isWordChar
      let rest := afterWs.drop tok.length
      if tok.isEmpty then none
      else
        match trySep rest with
        | some afterSep => some (tok, afterSep.takeWhile (fun c => c ≠ '\n'))
        | none =>
            match lastDashSplit tok with
            | some (t1, t2) =>
                some (t1, ((t2 ++ rest).dropWhile isPySpace).takeWhile
                  (fun c => c ≠ '\n'))
            | none => none

/-- Leftmost-first scan of `re.search` over all start positions. -/
def findDecisionAux : List Char → Option (List Char × List Char)
  | [] => none
  | c :: t =>
      match matchDecisionAt (c :: t) with
      | some r => some r
      | none => findDecisionAux t

/-- `re.search` for the decision pattern over a whole response. -/
def findDecision (s : String) : Option (String × String) :=
  (findDecisionAux s.toList).map (fun p => (String.mk p.1, String.mk p.2))

/-- The parse block of `decision_router_node` (src/nodes.py lines
683-691): on a match, the stripped capture groups; otherwise the default
decision `"chat"` with the stripped raw response as justification. -/
def parseDecision (llm_response : String) : String × String :=
  match findDecision llm_response with
  | some (tok, reason) => (pyStrip tok, pyStrip reason)
  | none => ("chat", pyStrip llm_response)

/-! ### Graph nodes (src/nodes.py, src/graph_builder.py)

Each node is a pure function of the prior state, the configuration, and
the oracle answers of its external calls (LLM completions, JSON parses).
Prompt strings are consumed only by the LLM oracle and are not tracked.
Every node return passes through `track_action` (via
`log_node_execution`). -/

/-- Tool-name normalization of the decision token (src/nodes.py lines
693-701): the first configured tool whose truthy name matches the token
case-insensitively, together with its declared `type`. -/
def findToolMatch (tokenStr : String) : List ToolCfg → Option (String × Option String)
  | [] => none
  | t :: rest =>
      match t.name with
      | some n =>
          if n ≠ "" && lowerStr n = lowerStr tokenStr then some (n, t.ttype)
          else findToolMatch tokenStr rest
      | none => findToolMatch tokenStr rest

/-- `decision_router_node(state, config, llm)` (src/nodes.py lines
620-736) with the LLM completion text as oracle: parse the decision,
normalize it against the tool catalog, apply the loop guard over the most
recent three history entries, and assemble the new state (the prompt
built from `enhanced_config` only feeds the oracle). -/
def decision_router_node (config : AgentConfig) (llmResponse : String)
    (state : AgentState) : AgentState :=
  let parsed := parseDecision llmResponse
  let next_action0 := parsed.1
  let justification := parsed.2
  let matched := findToolMatch next_action0 config.tools
  let chosen_tool0 : Option String := matched.map Prod.fst
  let tool_category0 : Option String := matched.bind Prod.snd
  let recent := state.action_history.drop (state.action_history.length - 3)
  let decisions :=
    (recent.filter (fun a => a.node = "DECISION_ROUTER")).map ActionRecord.outcome
  let repeated_tool :=
    match chosen_tool0 with
    | some ct =>
        !recent.isEmpty && decide (2 ≤ decisions.length) &&
          decisions.all (fun d => strContains d ct)
    | none => false
  let chosen_tool1 := if repeated_tool then none else chosen_tool0
  let tool_category1 := if repeated_tool then none else tool_category0
  let next_action1 := if repeated_tool then "chat" else next_action0
  let decision_context : DecisionContext :=
    { user_intent := state.user_input
      available_data := state.extracted_data
      tool_requirements :=
        match chosen_tool1 with
        | some ct => get_tool_requirements config ct
        | none => []
      reasoning := justification
      alternatives_considered :=
        get_alternative_actions config state.extracted_data }
  let core : AgentState :=
    { state with
      next_action := (chosen_tool1.getD next_action1)
      decision_justification := justification
      chosen_tool := pyOr ((chosen_tool1.getD "")) state.chosen_tool
      tool_category := pyOr ((tool_category1.getD "")) state.tool_category
      decision_context := some decision_context }
  track_action "DECISION_ROUTER" state core

/-- `chat_node(state, config, llm)` (src/nodes.py lines 103-144) with
the LLM reply as oracle: append the assistant message, clear
`user_input`, and set `conversation_active` to `True`. -/
def chat_node (llmResponse : String) (state : AgentState) : AgentState :=
  let core : AgentState :=
    { state with
      messages := state.messages ++ [{ role := "assistant", content := llmResponse }]
      user_input := ""
      conversation_active := true }
  track_action "CHAT_NODE" state core

/-- `end_node(state, config, llm)` (src/nodes.py lines 883-894). -/
def end_node (state : AgentState) : AgentState :=
  let core : AgentState :=
    { state with conversation_active := false, next_action := "end" }
  track_action "END" state core

/-- The conditional edge out of `exit_evaluator`
(src/graph_builder.py lines 153-154): `"end"` when `next_action` is
`"end"` or `conversation_active` is `False`, else back to the router. -/
def exit_router (state : AgentState) : String :=
  if state.next_action = "end" ∨ state.conversation_active = false then "end"
  else "decision_router"

/-- The conditional edge out of `decision_router`
(src/graph_builder.py lines 82-93): tool names go to the extractor,
`"end"` ends, everything else chats. -/
def decision_router_fn (config : AgentConfig) (state : AgentState) : String :=
  let tool_names := config.tools.filterMap
    (fun t => if t.enabled && t.name.getD "" ≠ "" then t.name else none)
  if tool_names.contains state.next_action then "structured_extractor"
  else if state.next_action = "end" then "end"
  else "chat"

/-- The extraction-merge loop of `structured_extractor_node`
(src/nodes.py lines 441-444): fill a key only when it is absent or its
current value is falsy. -/
def mergeFill (old : StrDict) (extracted : List (String × PyVal)) : StrDict :=
  extracted.foldl
    (fun m kv =>
      match dictGet m kv.1 with
      | none => dictSet m kv.1 kv.2
      | some ov => if pyTruthy ov then m else dictSet m kv.1 kv.2)
    old

/-- `dict.update`: every key of `upd` overwrites (src/nodes.py line 491). -/
def dictUpdate (d upd : StrDict) : StrDict :=
  upd.foldl (fun m kv => dictSet m kv.1 kv.2) d

/-- A `tool_input_spec` entry built by the extractor (name, description,
optional clarification prompt). -/
structure SpecEntry where
  name : String
  description : String
  prompt : Option String
  deriving DecidableEq, Repr

/-- The input schema of the currently selected tool, as resolved by the
extractor and validator nodes. -/
def selectedSchema (config : AgentConfig) (state : AgentState) :
    List SchemaField :=
  match (get_selected_tool_config config state).2 with
  | some t => normalize_input_schema t.input_schema
  | none => normalize_input_schema .absent

/-- `structured_extractor_node(state, config, llm)` (src/nodes.py lines
351-459).  The oracle `jsonResult` is the outcome of the try-block
`json.loads(json_llm.invoke(prompt).content)`: `some` a parsed string
dict, or `none` when the call or the parse raised (in which case the code
sets `extracted = {}`).  The only uncaught exception in the node is the
`tool_input_spec[0]` index on an empty spec list, modelled as `.error`. -/
def structured_extractor_node (config : AgentConfig)
    (jsonResult : Option StrDict) (state : AgentState) :
    Except String AgentState :=
  let extracted_data := state.extracted_data
  let messages := state.messages
  let selected := get_selected_tool_config config state
  let tool_type := pyOr selected.1 (config.tool_type.getD "unknown")
  let tool_category := get_tool_category config tool_type
  let fields := selectedSchema config state
  if fields ≠ [] ∧ are_required_fields_complete extracted_data fields then
    .ok (track_action "STRUCTURED_EXTRACTOR" state
      { state with
        next_action := "validate_inputs"
        chosen_tool := tool_type
        tool_category := tool_category })
  else
    let tool_input_spec : List SpecEntry :=
      if fields ≠ [] then
        fields.filterMap (fun f =>
          match f.name with
          | some n =>
              if n ≠ "" then
                some { name := n, description := f.description, prompt := none }
              else none
          | none => none)
      else if tool_category = "retrieval" then
        [{ name := "query", description := "",
           prompt := some "What should I search for?" }]
      else
        [{ name := "tool_input", description := "",
           prompt := some "Please provide the input for this operation." }]
    let extracted : StrDict :=
      match jsonResult with
      | some m => m.map (fun kv =>
          (kv.1, match kv.2 with
                 | vstr s => vstr (pyStrip s)
                 | v => v))
      | none => []
    let merged := mergeFill extracted_data extracted
    if extracted = [] ∧ messages = [] then
      if tool_category = "retrieval" then
        .ok (track_action "STRUCTURED_EXTRACTOR" state
          { state with
            messages := messages ++
              [{ role := "assistant",
                 content := "What would you like me to search for?" }]
            next_action := "chat" })
      else
        match tool_input_spec.head? with
        | none => .error "IndexError: list index out of range"
        | some entry =>
            .ok (track_action "STRUCTURED_EXTRACTOR" state
              { state with
                messages := messages ++
                  [{ role := "assistant",
                     content := entry.prompt.getD
                       "Could you share the necessary details?" }]
                next_action := "chat" })
    else
      .ok (track_action "STRUCTURED_EXTRACTOR" state
        { state with
          extracted_data := merged
          next_action := "validate_inputs"
          chosen_tool := tool_type
          tool_category := tool_category })

/-- `validate_inputs_node(state, config, llm)` (src/nodes.py lines
462-494): validate `extracted_data` against the selected tool's schema;
on errors route to chat with a composite message, otherwise merge the
coerced values over `extracted_data` and proceed to tool execution. -/
def validate_inputs_node (prims : NumPrims) (config : AgentConfig)
    (state : AgentState) : AgentState :=
  let selected := get_selected_tool_config config state
  let tool_type := pyOr selected.1 (config.tool_type.getD "unknown")
  let schema_fields := selectedSchema config state
  let res := validate_against_schema prims state.extracted_data schema_fields
  let validated := res.1
  let val_errors := res.2
  if val_errors ≠ [] then
    track_action "VALIDATE_INPUTS" state
      { state with
        messages := state.messages ++
          [{ role := "assistant",
             content := "I need a bit more information or corrections: " ++
               String.intercalate "; " val_errors }]
        validation_errors := val_errors
        next_action := "chat" }
  else
    track_action "VALIDATE_INPUTS" state
      { state with
        extracted_data := dictUpdate state.extracted_data validated
        validation_errors := []
        next_action := "tool_execution"
        chosen_tool := tool_type }

/-! ### Tool registry and executor (src/tools.py)

Tool functions receive string-valued extracted data (the executor node
stringifies every value first, src/nodes.py line 744), a runtime
configuration, and a "world" of oracle answers for their external calls
(gspread, Tavily, SMTP, HTTP).  Exception messages raised by those calls
appear as strings inside the worlds. -/

/-- String-valued data mapping as passed to tool implementations. -/
abbrev StrMap := List (String × String)

/-- First-match lookup in a string map. -/
def mapGet (d : StrMap) (k : String) : Option String :=
  match d with
  | [] => none
  | (k', v) :: t => if k' = k then some v else mapGet t k

/-- `data.get(k, "")`. -/
def mapGetD (d : StrMap) (k : String) : String := (mapGet d k).getD ""

/-- A legacy `required_fields` entry `{key | name, validate}` as read by
src/validation.py; `key = none` means the `key` entry is absent and the
`name` entry is used as fallback. -/
structure ReqField where
  key : Option String
  name : Option String
  validate : Option String
  deriving DecidableEq, Repr

/-- `field.get("key", field.get("name", ""))`. -/
def reqKey (f : ReqField) : String :=
  match f.key with
  | some k => k
  | none => f.name.getD ""

/-- The `sheet` sub-configuration. -/
structure SheetCfg where
  spreadsheet_title : Option String
  worksheet_name : Option String
  deriving DecidableEq, Repr

/-- The `email` sub-configuration (only the keys the branching reads). -/
structure EmailCfg where
  smtp_server : Option String
  username : Option String
  password : Option String
  deriving DecidableEq, Repr

/-- The `api_retrieval` sub-configuration keys that shape the envelope. -/
structure ApiCfg where
  base_url : Option String
  method : Option String
  deriving DecidableEq, Repr

/-- The runtime tool configuration dict handed to tool implementations
(the legacy keys produced by `build_runtime_tool_config`). -/
structure RuntimeCfg where
  sheet : Option SheetCfg
  credentials_path : Option String
  required_fields : List ReqField
  email : Option EmailCfg
  api_retrieval : Option ApiCfg
  deriving DecidableEq, Repr

/-- `validate_field(config, key, value)` (src/validation.py lines 9-31). -/
def validate_field (config : RuntimeCfg) (key : String) (value : String) :
    Bool :=
  match config.required_fields.find? (fun f => reqKey f = key) with
  | none => true
  | some spec =>
      match spec.validate with
      | some "email" => emailMatch (pyStrip value)
      | some "required" => pyStrip value ≠ ""
      | _ => true

/-- `is_data_complete(config, data)` (src/validation.py lines 91-116). -/
def is_data_complete (config : RuntimeCfg) (data : StrMap) : Bool :=
  config.required_fields.all fun f =>
    let key := reqKey f
    let value := mapGetD data key
    pyStrip value ≠ "" && validate_field config key value

instance {ε α : Type} [DecidableEq ε] [DecidableEq α] :
    DecidableEq (Except ε α) := fun x y =>
  match x, y with
  | .error e, .error f =>
      if h : e = f then isTrue (congrArg Except.error h)
      else isFalse (fun hh => h (Except.error.inj hh))
  | .error _, .ok _ => isFalse (fun hh => Except.noConfusion hh)
  | .ok _, .error _ => isFalse (fun hh => Except.noConfusion hh)
  | .ok a, .ok b =>
      if h : a = b then isTrue (congrArg Except.ok h)
      else isFalse (fun hh => h (Except.ok.inj hh))

/-- Outcome of the gspread authentication call inside `sheets_tool`. -/
inductive SheetsAuth where
  | ok
  | fileNotFound
  | importErr (msg : String)
  | clientErr (msg : String)
  deriving DecidableEq, Repr

/-- Oracle answers for the external calls of `sheets_tool`: each
`.error msg` carries `str(e)` of the raised exception. -/
structure SheetsWorld where
  auth : SheetsAuth
  openSheet : Except String Unit
  worksheet : Except String Unit
  append : Except String Unit
  deriving DecidableEq, Repr

/-- Non-empty-value field names of the data, Python
`[k for k, v in data.items() if v not in (None, "", [], {})]`. -/
def nonEmptyFields (data : StrMap) : List String :=
  (data.filter (fun kv => kv.2 ≠ "")).map Prod.fst

/-- The success summary of `sheets_tool` (src/tools.py lines 380-389). -/
def sheetsSummary (data : StrMap) (title ws : String) : String :=
  let ne := nonEmptyFields data
  let sample :=
    if ne = [] then "(no fields)"
    else String.intercalate ", " (ne.take 5) ++
      (if ne.length > 5 then ", ..." else "")
  "Saved " ++ toString ne.length ++ " field(s) (" ++ sample ++
    ") to spreadsheet '" ++ title ++ "' (worksheet: '" ++ ws ++ "')."

/-- `sheets_tool(extracted_data, config)` (src/tools.py lines 161-439). -/
def sheets_tool (config : RuntimeCfg) (w : SheetsWorld) (data : StrMap) :
    Envelope :=
  if ¬ is_data_complete config data then
    { success := false, rtype := "sheets"
      message := "Cannot execute tool: missing required data"
      error := some "Incomplete data"
      summary := some "Failed: missing required data for Google Sheets write." }
  else
    match config.sheet with
    | none =>
        { success := false, rtype := "sheets"
          message := "Google Sheets configuration missing in agent config"
          error := some "Missing sheet configuration"
          summary := some "Google Sheets configuration missing in agent config" }
    | some sc =>
        if sc.spreadsheet_title.getD "" = "" then
          { success := false, rtype := "sheets"
            message := "Missing spreadsheet_title in sheet configuration"
            error := some "Missing spreadsheet_title"
            summary := some "Missing spreadsheet_title in sheet configuration" }
        else if sc.worksheet_name.getD "" = "" then
          { success := false, rtype := "sheets"
            message := "Missing worksheet_name in sheet configuration"
            error := some "Missing worksheet_name"
            summary := some "Missing worksheet_name in sheet configuration" }
        else if config.credentials_path.getD "" = "" then
          { success := false, rtype := "sheets"
            message := "Missing credentials_path in agent configuration"
            error := some "Missing credentials_path"
            summary := some "Missing credentials_path in agent configuration" }
        else
          let title := sc.spreadsheet_title.getD ""
          let ws := sc.worksheet_name.getD ""
          match w.auth with
          | .fileNotFound =>
              { success := false, rtype := "sheets"
                message := "Credentials file not found: " ++
                  config.credentials_path.getD ""
                error := some "Credentials file not found"
                summary := some ("Credentials file not found: " ++
                  config.credentials_path.getD "") }
          | .importErr e =>
              { success := false, rtype := "sheets"
                message := "Missing Google Sheets dependencies: " ++ e
                error := some "Missing dependencies"
                summary := some ("Missing Google Sheets dependencies: " ++ e) }
          | .clientErr e =>
              { success := false, rtype := "sheets"
                message := "Failed to authenticate with Google Sheets: " ++ e
                error := some e
                summary := some ("Failed to authenticate with Google Sheets: " ++ e) }
          | .ok =>
              match w.openSheet with
              | .error e =>
                  { success := false, rtype := "sheets"
                    message := "Spreadsheet '" ++ title ++
                      "' not found or not accessible"
                    error := some e
                    summary := some ("Spreadsheet '" ++ title ++
                      "' not found or not accessible") }
              | .ok _ =>
                  match w.worksheet with
                  | .error e =>
                      { success := false, rtype := "sheets"
                        message := "Worksheet '" ++ ws ++
                          "' not found in spreadsheet '" ++ title ++ "'"
                        error := some e
                        summary := some ("Worksheet '" ++ ws ++
                          "' not found in spreadsheet '" ++ title ++ "'") }
                  | .ok _ =>
                      match w.append with
                      | .ok _ =>
                          { success := true, rtype := "sheets"
                            message :=
                              "Successfully saved your information to Google Sheets"
                            error := none
                            summary := some (sheetsSummary data title ws) }
                      | .error e =>
                          { success := false, rtype := "sheets"
                            message := "Failed to write to Google Sheets: " ++ e
                            error := some e
                            summary := some ("Failed to write to spreadsheet '" ++
                              title ++ "': " ++ e) }

/-- Oracle answers for `web_search_tool`: `tavilyOk` is "the Tavily
client is importable and the API key env var is set"; `search` carries
the result count on success, `str(e)` on a raised exception. -/
structure WebWorld where
  tavilyOk : Bool
  search : Except String Nat
  deriving DecidableEq, Repr

/-- `web_search_tool(extracted_data, config)` (src/tools.py lines
441-525). -/
def web_search_tool (w : WebWorld) (data : StrMap) : Envelope :=
  let query := pyOr (mapGetD data "search_query")
    (pyOr (mapGetD data "query") (pyOr (mapGetD data "question") "general search"))
  if w.tavilyOk then
    match w.search with
    | .ok n =>
        { success := true, rtype := "tavily"
          message := "Found " ++ toString n ++ " results for: " ++ query
          error := none
          summary := some ("Found " ++ toString n ++ " results for: " ++ query) }
    | .error e =>
        { success := false, rtype := "web_search"
          message := "Tavily search failed: " ++ e
          error := some e
          summary := some ("Tavily search failed: " ++ e) }
  else
    { success := false, rtype := "web_search"
      message := "Web search unavailable: Tavily API key not configured"
      error := some "Missing Tavily API key"
      summary := some "Web search unavailable: Tavily API key not configured" }

/-- Oracle answers for `email_tool`: `depsErr` is the import-failure
message if the email modules are unavailable; `send` is the SMTP
send outcome. -/
structure EmailWorld where
  depsErr : Option String
  send : Except String Unit
  deriving DecidableEq, Repr

/-- `email_tool(extracted_data, config)` (src/tools.py lines 528-645).
None of its failure envelopes carries a `summary` key. -/
def email_tool (config : RuntimeCfg) (w : EmailWorld) (data : StrMap) :
    Envelope :=
  match w.depsErr with
  | some e =>
      { success := false, rtype := "email"
        message := "Email dependencies not available: " ++ e
        error := some "Missing dependencies"
        summary := none }
  | none =>
      let recipient := pyOr (mapGetD data "email") (mapGetD data "recipient")
      if recipient = "" then
        { success := false, rtype := "email"
          message := "No recipient email address provided"
          error := some "Missing recipient"
          summary := none }
      else
        let ec := config.email
        let smtp_server := (ec.bind EmailCfg.smtp_server).getD ""
        let username := (ec.bind EmailCfg.username).getD ""
        let password := (ec.bind EmailCfg.password).getD ""
        if smtp_server = "" ∨ username = "" ∨ password = "" then
          { success := false, rtype := "email"
            message :=
              "Email configuration incomplete (missing smtp_server, username, or password)"
            error := some "Incomplete configuration"
            summary := none }
        else
          match w.send with
          | .ok _ =>
              { success := true, rtype := "email"
                message := "Email sent successfully to " ++ recipient
                error := none
                summary := none }
          | .error e =>
              { success := false, rtype := "email"
                message := "Email sending failed: " ++ e
                error := some e
                summary := none }

/-- Outcome of the HTTP request inside `api_retrieval_tool`:
the `requests` module may be missing, the request may raise, or it may
complete with a status code. -/
inductive ApiOutcome where
  | noRequests
  | raised (msg : String)
  | completed (status : Nat)
  deriving DecidableEq, Repr

/-- `api_retrieval_tool(extracted_data, config)` (src/tools.py lines
26-159).  A completed request returns `success = (200 <= status < 300)`
and — unlike every other failure path — carries **no** `error` key. -/
def api_retrieval_tool (config : RuntimeCfg) (w : ApiOutcome) (data : StrMap) :
    Envelope :=
  match w with
  | .noRequests =>
      { success := false, rtype := "api_retrieval"
        message := "Requests library not available. Install: pip install requests"
        error := some "Missing dependency: requests"
        summary := none }
  | _ =>
      let api := config.api_retrieval
      let base_url := (api.bind ApiCfg.base_url).getD ""
      if base_url = "" then
        { success := false, rtype := "api_retrieval"
          message := "Missing required config: base_url"
          error := some "Invalid configuration"
          summary := none }
      else
        let method := (api.bind ApiCfg.method).getD "GET"
        let query_value :=
          pyOr (mapGetD data "query") (mapGetD data "search_query")
        match w with
        | .raised e =>
            { success := false, rtype := "api_retrieval"
              message := "API request failed: " ++ e
              error := some e
              summary := none }
        | .completed status =>
            let summary := "API " ++ method ++ " " ++ toString status ++
              " for " ++ base_url ++
              (if query_value ≠ "" then
                " | query='" ++ take50 query_value ++ "'" else "")
            { success := decide (200 ≤ status ∧ status < 300)
              rtype := "api_retrieval"
              message := summary
              error := none
              summary := some summary }
        | .noRequests =>
            { success := false, rtype := "api_retrieval"
              message := "Requests library not available. Install: pip install requests"
              error := some "Missing dependency: requests"
              summary := none }

/-- The bundle of oracle answers for one `execute_tool` invocation. -/
structure ToolWorlds where
  sheets : SheetsWorld
  web : WebWorld
  email : EmailWorld
  api : ApiOutcome
  deriving DecidableEq, Repr

/-- The keys of the `AVAILABLE_TOOLS` registry (src/tools.py lines
648-653).  Note that no `"generic"` key is registered. -/
def AVAILABLE_TOOLS : List String :=
  ["sheets", "web_search", "tavily", "api_retrieval"]

/-- `execute_tool(tool_type, extracted_data, config)` (src/tools.py
lines 655-681).  The lookup `AVAILABLE_TOOLS.get(tool_type,
AVAILABLE_TOOLS["generic"])` evaluates its default eagerly; since the
registry has no `"generic"` key, an unknown `tool_type` raises
`KeyError('generic')` inside the try block, and the catch-all returns a
failure envelope with `error = str(e) = "'generic'"`. -/
def execute_tool (tw : ToolWorlds) (tool_type : String) (data : StrMap)
    (config : RuntimeCfg) : Envelope :=
  if tool_type = "sheets" then sheets_tool config tw.sheets data
  else if tool_type = "web_search" ∨ tool_type = "tavily" then
    web_search_tool tw.web data
  else if tool_type = "api_retrieval" then api_retrieval_tool config tw.api data
  else
    { success := false, rtype := tool_type
      message := "Tool execution failed: 'generic'"
      error := some "'generic'"
      summary := none }

/-! ### Question generation (src/llamaindex_agent.py lines 212-312)

`generate_questions` asks the JSON-mode LLM for two comprehension
questions; on any parse/LLM failure it retries once with the conversation
LLM on the same prompt; if that also fails it returns two canned
questions flagged `fallback=True`.  The two parse outcomes are oracles. -/

/-- One generated question record. -/
structure Question where
  question : String
  correct_answer : String
  question_type : String
  deriving DecidableEq, Repr

/-- The `QuestionsGeneratedEvent` payload (fallback defaults to false). -/
structure QuestionsGeneratedEvent where
  success : Bool
  questions : List Question
  language : String
  fallback : Bool := false
  deriving DecidableEq, Repr

/-- The deterministic canned questions of the final fallback tier
(src/llamaindex_agent.py lines 292-303). -/
def fallback_questions (language : String) : List Question :=
  [{ question := "What is the main topic of this article? (in " ++ language ++ ")"
     correct_answer := "Main topic based on article content"
     question_type := "main_idea" },
   { question := "What are the key details mentioned in this article? (in " ++
       language ++ ")"
     correct_answer := "Key details from the article"
     question_type := "detail" }]

/-- `generate_questions` (src/llamaindex_agent.py lines 212-312) with
the two tiers' parse outcomes as oracles: `primary` is the JSON-mode
attempt, `alternate` the conversation-LLM retry on the same prompt;
`none` means that tier's invoke/parse/key-access raised. -/
def generate_questions (language : String)
    (primary alternate : Option (List Question)) : QuestionsGeneratedEvent :=
  match primary with
  | some qs => { success := true, questions := qs, language := language }
  | none =>
      match alternate with
      | some qs => { success := true, questions := qs, language := language }
      | none =>
          { success := true, questions := fallback_questions language
            language := language, fallback := true }

/-- The three-tier degrade protocol exactly as the specification words
it (spec section 4.2), for refinement comparison with the code:
constrained attempt, then one unconstrained retry, then a caller-supplied
deterministic fallback flagged as degraded. -/
def specThreeTier {α : Type} (primary alternate : Option α) (fallback : α) :
    α × Bool :=
  match primary with
  | some v => (v, false)
  | none =>
      match alternate with
      | some v => (v, false)
      | none => (fallback, true)

/-! ### Concrete fixtures used by witnesses and counterexamples -/

/-- A fresh conversation state with all fields at their safe defaults. -/
def st0 : AgentState :=
  { messages := [], user_input := "", extracted_data := [], query_spec := []
    tool_result := none, last_tool_summary := "", last_tool_context := []
    next_action := "", chosen_tool := "", tool_category := ""
    error_message := "", conversation_active := true
    decision_justification := "", decision_context := none
    session_id := "", action_history := [], clarification_message := ""
    validation_errors := [] }

/-- A configured input tool named `X` with no input schema. -/
def toolX : ToolCfg :=
  { name := some "X", ttype := some "input", impl := none, enabled := true
    description := "", input_schema := .absent, config := [] }

/-- A configuration with the single tool `X`. -/
def cfgX : AgentConfig :=
  { tools := [toolX], tool_type := none, credentials_path := none
    exit_conditions := [], exit_condition_mode := none }

/-- A decision-router history record with a given outcome text. -/
def drRec (n : Nat) (o : String) : ActionRecord :=
  { step := n, node := "DECISION_ROUTER", transition := "t", outcome := o
    timestamp := n }

/-- Three decision-router records: two whose outcomes mention tool `X`,
one whose outcome mentions `chat`. -/
def hist3 : List ActionRecord :=
  [drRec 1 "decided 'X' - go", drRec 2 "decided 'X' - again",
   drRec 3 "decided 'chat' - pause"]

/-- State whose last three history entries are the records of `hist3`. -/
def st1 : AgentState := { st0 with user_input := "hi", action_history := hist3 }

/-- State with two decision-router records mentioning `X` and with
`chosen_tool`/`tool_category` still set from the previous turn. -/
def st2 : AgentState :=
  { st0 with
    user_input := "hi"
    action_history := hist3.take 2
    chosen_tool := "X"
    tool_category := "input" }

/-- A session already marked inactive. -/
def st3 : AgentState :=
  { st0 with user_input := "hi", conversation_active := false }

/-- Simple numeric-primitive oracle for witnesses. -/
def prims0 : NumPrims :=
  { intParse := fun s => if s = "7" then some 7 else none
    floatParse := fun s => if s = "2.5e1" then some 25 else none
    floatRepr := fun q => toString q.num ++ ".0" }

/-- Regex oracle that never matches (used only where the regex path is
not exercised). -/
def rxFalse : RegexOracle := fun _ _ => false

/-- Empty runtime tool configuration. -/
def rc0 : RuntimeCfg :=
  { sheet := none, credentials_path := none, required_fields := []
    email := none, api_retrieval := none }

/-- A tool-world bundle with all external calls succeeding. -/
def tw0 : ToolWorlds :=
  { sheets := { auth := .ok, openSheet := .ok (), worksheet := .ok ()
                append := .ok () }
    web := { tavilyOk := false, search := .ok 0 }
    email := { depsErr := none, send := .ok () }
    api := .noRequests }

/-- Runtime configuration for the API-retrieval tool with a base URL. -/
def rcApi : RuntimeCfg :=
  { rc0 with api_retrieval := some { base_url := some "http://x", method := none } }

/-- Configuration with no tools at all and a legacy `tool_type`. -/
def cfgEmpty : AgentConfig :=
  { tools := [], tool_type := some "ghost", credentials_path := none
    exit_conditions := [], exit_condition_mode := none }

/-- State whose `chosen_tool` names a tool that is not configured. -/
def stGhost : AgentState := { st0 with chosen_tool := "ghost" }

/-- State with one prior user message (so the extractor's clarification
branch is not taken). -/
def stC6 : AgentState :=
  { st0 with user_input := "hi", messages := [{ role := "user", content := "hi" }] }

/-- A parsed mapping an alternate completion tier would have produced. -/
def altC6 : StrDict := [("name", PyVal.vstr "Alice")]

/-! ### Helper lemmas about strings and the decision matcher -/

theorem toList_append (a b : String) : (a ++ b).toList = a.toList ++ b.toList :=
  rfl

theorem takeLiteralCI_refl (lit rest : List Char) :
    takeLiteralCI lit (lit ++ rest) = some rest := by
  induction lit with
  | nil => rfl
  | cons p ps ih => simp [takeLiteralCI, ih]

theorem isWordChar_not_space {c : Char} (h : isWordChar c = true) :
    isPySpace c = false := by
  cases hval : isPySpace c
  · rfl
  · exfalso
    have hsp := hval
    simp only [isPySpace, Bool.or_eq_true, decide_eq_true_eq] at hsp
    rcases hsp with ((((h1 | h1) | h1) | h1) | h1) | h1 <;> subst h1 <;>
      simp [isWordChar] at h

theorem dropWhile_space_of_word (t x : List Char) (hne : t ≠ [])
    (hword : ∀ c ∈ t, isWordChar c = true) :
    (t ++ x).dropWhile isPySpace = t ++ x := by
  cases t with
  | nil => exact absurd rfl hne
  | cons th tt =>
      have := isWordChar_not_space (hword th (List.mem_cons_self th tt))
      simp [List.dropWhile, this]

theorem takeWhile_word_append (t : List Char) (x : List Char)
    (hword : ∀ c ∈ t, isWordChar c = true) :
    (t ++ (' ' :: x)).takeWhile isWordChar = t := by
  induction t with
  | nil => simp [List.takeWhile, isWordChar]
  | cons th tt ih =>
      have h1 := hword th (List.mem_cons_self th tt)
      have h2 : ∀ c ∈ tt, isWordChar c = true :=
        fun c hc => hword c (List.mem_cons_of_mem th hc)
      simp [List.takeWhile, h1, ih h2]

theorem dropWhile_all_neg {p : Char → Bool} (l : List Char)
    (h : ∀ c ∈ l, p c = false) : l.dropWhile p = l := by
  cases l with
  | nil => rfl
  | cons c t => simp [List.dropWhile, h c (List.mem_cons_self c t)]

theorem stripChars_of_word (t : List Char)
    (hword : ∀ c ∈ t, isWordChar c = true) : stripChars t = t := by
  have hns : ∀ c ∈ t, isPySpace c = false :=
    fun c hc => isWordChar_not_space (hword c hc)
  unfold stripChars
  rw [dropWhile_all_neg t hns]
  rw [dropWhile_all_neg t.reverse (fun c hc => hns c (List.mem_reverse.mp hc))]
  exact List.reverse_reverse t

theorem stripChars_dropWhile (l : List Char) :
    stripChars (l.dropWhile isPySpace) = stripChars l := by
  unfold stripChars
  rw [List.dropWhile_idempotent]

theorem takeWhile_no_newline (l : List Char) (h : ∀ c ∈ l, c ≠ '\n') :
    l.takeWhile (fun c => decide (c ≠ '\n')) = l :=
  List.takeWhile_eq_self_iff.mpr (fun c hc => decide_eq_true (h c hc))

theorem matchDecisionAt_exact (t r : List Char) (hne : t ≠ [])
    (hword : ∀ c ∈ t, isWordChar c = true) :
    matchDecisionAt
      ('D' :: 'E' :: 'C' :: 'I' :: 'S' :: 'I' :: 'O' :: 'N' :: ':' :: ' ' ::
        (t ++ (' ' :: '-' :: ' ' :: r))) =
      some (t, (r.dropWhile isPySpace).takeWhile (fun c => decide (c ≠ '\n'))) := by
  have hshape :
      ('D' :: 'E' :: 'C' :: 'I' :: 'S' :: 'I' :: 'O' :: 'N' :: ':' :: ' ' ::
        (t ++ (' ' :: '-' :: ' ' :: r))) =
      "DECISION:".toList ++ (' ' :: (t ++ (' ' :: '-' :: ' ' :: r))) := rfl
  rw [hshape]
  unfold matchDecisionAt
  rw [takeLiteralCI_refl]
  dsimp only
  have hdw1 : (' ' :: (t ++ (' ' :: '-' :: ' ' :: r))).dropWhile isPySpace =
      t ++ (' ' :: '-' :: ' ' :: r) := by
    rw [List.dropWhile_cons_of_pos (by rfl)]
    exact dropWhile_space_of_word t _ hne hword
  rw [hdw1]
  rw [takeWhile_word_append t _ hword]
  have hlen : (t ++ (' ' :: '-' :: ' ' :: r)).drop t.length =
      ' ' :: '-' :: ' ' :: r := List.drop_left t _
  rw [hlen]
  have hnotempty : t.isEmpty = false := by
    cases t with
    | nil => exact absurd rfl hne
    | cons a b => rfl
  rw [hnotempty]
  have hsep : trySep (' ' :: '-' :: ' ' :: r) = some (r.dropWhile isPySpace) := by
    unfold trySep
    rw [List.dropWhile_cons_of_pos (by rfl)]
    rw [List.dropWhile_cons_of_neg (by simp [isPySpace])]
    rfl
  rw [hsep]
  rfl

theorem findDecisionAux_cons (c : Char) (t : List Char) :
    findDecisionAux (c :: t) =
      match matchDecisionAt (c :: t) with
      | some r => some r
      | none => findDecisionAux t := rfl

theorem findDecisionAux_skip (pre rest : List Char)
    (h : ∀ i < pre.length, matchDecisionAt ((pre ++ rest).drop i) = none) :
    findDecisionAux (pre ++ rest) = findDecisionAux rest := by
  induction pre with
  | nil => rfl
  | cons c p ih =>
      have h0 : matchDecisionAt (c :: (p ++ rest)) = none := h 0 (by simp)
      rw [List.cons_append, findDecisionAux_cons, h0]
      exact ih (fun i hi => h (i + 1) (Nat.succ_lt_succ hi))

/-! ## Claim theorems -/

/-- C2 (code bug evaluation): for an unknown tool type, `execute_tool`
does not return a generic/no-op registry entry's result: the registry
has no `"generic"` key, so the fallback lookup itself raises
`KeyError('generic')` and the catch-all returns a failure envelope whose
error is the stringified `KeyError`. -/
theorem execute_tool_unknown_keyerror_envelope :
    execute_tool tw0 "nonexistent" [("a", "b")] rc0 =
      { success := false, rtype := "nonexistent"
        message := "Tool execution failed: 'generic'"
        error := some "'generic'", summary := none } ∧
    AVAILABLE_TOOLS.contains "generic" = false := by
  constructor
  · rfl
  · rfl

/-- C7 (code bug evaluation): `evaluate` on a `prompt` condition whose
expression is a truthy non-string (here a list of phrases, which the
exit-evaluator docstring advertises as supported) raises
`AttributeError` instead of returning a boolean; descriptors with a
missing or unknown `type` do evaluate to `false`. -/
theorem evaluate_prompt_list_expression_raises :
    evaluate prims0 rxFalse
        { ctype := some "prompt", expression := .elist ["bye"] } st0
        [{ role := "user", content := "bye" }] =
      .error "AttributeError: expression object has no attribute startswith" ∧
    evaluate prims0 rxFalse { ctype := none, expression := .estr "x" } st0 [] =
      .ok false ∧
    evaluate prims0 rxFalse { ctype := some "weird", expression := .estr "x" }
        st0 [] = .ok false ∧
    evaluate prims0 rxFalse
        { ctype := some "prompt", expression := .eint 5 } st0
        [{ role := "user", content := "hi" }] =
      .error "AttributeError: expression object has no attribute startswith" := by
  refine ⟨rfl, rfl, rfl, rfl⟩

/-- C1 counterexample: (i) with a history whose last three entries are
all decision-router records, two of which mention tool `X` and one of
which does not, a raw decision of `X` is **not** overridden — the router
returns `next_action = "X"`, although at least 2 of the recent
decision-router outcomes contain `X`; (ii) when the override does fire
(two matching records), `chosen_tool`/`tool_category` are not cleared in
the returned state: they fall back to their previous values. -/
theorem decision_router_loop_guard_counterexample :
    (((st1.action_history.drop (st1.action_history.length - 3)).filter
        (fun a => a.node = "DECISION_ROUTER")).filter
        (fun a => strContains a.outcome "X")).length = 2 ∧
    (decision_router_node cfgX "DECISION: X - do it" st1).next_action = "X" ∧
    (decision_router_node cfgX "DECISION: X - do it" st2).next_action = "chat" ∧
    (decision_router_node cfgX "DECISION: X - do it" st2).chosen_tool = "X" ∧
    (decision_router_node cfgX "DECISION: X - do it" st2).tool_category =
      "input" := by
  refine ⟨rfl, ?_, ?_, ?_, ?_⟩ <;> rfl

/-- C5 counterexample: a state with `conversation_active = false` is not
terminal — re-invoking the machine passes through the decision router,
which ignores `conversation_active` and sets `next_action = "chat"`, and
the chat node then sets `conversation_active` back to `true`. -/
theorem conversation_inactive_not_terminal :
    st3.conversation_active = false ∧
    (decision_router_node cfgX "DECISION: chat - greet" st3).next_action =
      "chat" ∧
    (chat_node "hello" st3).conversation_active = true := by
  refine ⟨rfl, rfl, rfl⟩

/-- C5 (amended): once `conversation_active = false`, the exit edge
routes to `end`, and the end node keeps the session terminal: it always
returns `next_action = "end"` and `conversation_active = false`.  (The
decision router and chat node, however, do not preserve inactivity; see
the counterexample.) -/
theorem terminal_exit_routing (st : AgentState)
    (h : st.conversation_active = false) :
    exit_router st = "end" ∧
    (end_node st).next_action = "end" ∧
    (end_node st).conversation_active = false := by
  refine ⟨?_, rfl, rfl⟩
  unfold exit_router
  rw [if_pos (Or.inr h)]

/-- Witness for `terminal_exit_routing` at the concrete inactive state. -/
theorem terminal_exit_routing_witness :
    st3.conversation_active = false ∧
    (exit_router st3 = "end" ∧
     (end_node st3).next_action = "end" ∧
     (end_node st3).conversation_active = false) :=
  ⟨rfl, terminal_exit_routing st3 rfl⟩

/-- C8 counterexample: when no `DECISION:` line matches, the fallback
justification is the **stripped** LLM text, not the raw text: a response
with a trailing newline yields a justification that differs from it. -/
theorem parse_decision_strips_fallback_justification :
    parseDecision "no decision here\n" = ("chat", "no decision here") ∧
    ("no decision here" : String) ≠ "no decision here\n" := by
  exact ⟨rfl, by decide⟩

/-- C8 (amended): the decision parse extracts the first
`DECISION: <token> - <reason>` occurrence — on the spec's example it
yields `next_action = "end"` with justification `"user said goodbye"`,
and in general a response `a ++ "DECISION: " ++ t ++ " - " ++ r` (no
earlier pattern occurrence in `a`, `t` a nonempty run of token
characters, `r` newline-free) parses to `(t, strip r)`; when nothing
matches, the decision defaults to `"chat"` and the justification is the
raw LLM text **stripped of surrounding whitespace** (not the raw text
itself); the parse is a total function. -/
theorem parse_decision_contract :
    parseDecision "I think DECISION: end - user said goodbye" =
      ("end", "user said goodbye") ∧
    (∀ s, findDecision s = none → parseDecision s = ("chat", pyStrip s)) ∧
    (∀ a t r : String,
      (∀ i < a.toList.length,
        matchDecisionAt
          ((a ++ "DECISION: " ++ t ++ " - " ++ r).toList.drop i) = none) →
      t.toList ≠ [] →
      (∀ c ∈ t.toList, isWordChar c = true) →
      (∀ c ∈ r.toList, c ≠ '\n') →
      parseDecision (a ++ "DECISION: " ++ t ++ " - " ++ r) = (t, pyStrip r)) := by
  refine ⟨rfl, ?_, ?_⟩
  · intro s hnone
    unfold parseDecision
    rw [hnone]
  · intro a t r hnm hne hword hnl
    have hfull : (a ++ "DECISION: " ++ t ++ " - " ++ r).toList =
        a.toList ++ ('D' :: 'E' :: 'C' :: 'I' :: 'S' :: 'I' :: 'O' :: 'N' ::
          ':' :: ' ' :: (t.toList ++ (' ' :: '-' :: ' ' :: r.toList))) := by
      simp only [toList_append, List.append_assoc]
      rfl
    have hhead : findDecisionAux
        ('D' :: 'E' :: 'C' :: 'I' :: 'S' :: 'I' :: 'O' :: 'N' :: ':' :: ' ' ::
          (t.toList ++ (' ' :: '-' :: ' ' :: r.toList))) =
        some (t.toList,
          (r.toList.dropWhile isPySpace).takeWhile (fun c => decide (c ≠ '\n'))) := by
      rw [findDecisionAux_cons, matchDecisionAt_exact t.toList r.toList hne hword]
    have hscan : findDecisionAux ((a ++ "DECISION: " ++ t ++ " - " ++ r).toList) =
        some (t.toList,
          (r.toList.dropWhile isPySpace).takeWhile (fun c => decide (c ≠ '\n'))) := by
      rw [hfull]
      rw [findDecisionAux_skip _ _ (fun i hi => by rw [← hfull]; exact hnm i hi)]
      exact hhead
    have hg2 : (r.toList.dropWhile isPySpace).takeWhile
        (fun c => decide (c ≠ '\n')) = r.toList.dropWhile isPySpace :=
      takeWhile_no_newline _
        (fun c hc => hnl c ((List.dropWhile_sublist _).subset hc))
    unfold parseDecision findDecision
    rw [hscan]
    simp only [Option.map_some']
    show (pyStrip (String.mk t.toList),
        pyStrip (String.mk ((r.toList.dropWhile isPySpace).takeWhile
          (fun c => decide (c ≠ '\n'))))) = (t, pyStrip r)
    rw [hg2]
    have h1 : pyStrip (String.mk t.toList) = t := by
      unfold pyStrip
      show String.mk (stripChars (String.mk t.toList).toList) = t
      have : (String.mk t.toList).toList = t.toList := rfl
      rw [this, stripChars_of_word t.toList hword]
      rfl
    have h2 : pyStrip (String.mk (r.toList.dropWhile isPySpace)) = pyStrip r := by
      unfold pyStrip
      show String.mk (stripChars (String.mk (r.toList.dropWhile isPySpace)).toList) =
        String.mk (stripChars r.toList)
      have : (String.mk (r.toList.dropWhile isPySpace)).toList =
          r.toList.dropWhile isPySpace := rfl
      rw [this, stripChars_dropWhile]
    rw [h1, h2]

/-- Witness for `parse_decision_contract`: the general match clause
applied at the spec's own example decomposition. -/
theorem parse_decision_contract_witness :
    ("end" : String).toList ≠ [] ∧
    parseDecision ("I think " ++ "DECISION: " ++ "end" ++ " - " ++
      "user said goodbye") = ("end", pyStrip "user said goodbye") :=
  ⟨by decide,
   parse_decision_contract.2.2 "I think " "end" "user said goodbye"
     (by decide) (by decide) (by decide) (by decide)⟩

/-- C1 (amended): when the parsed decision token resolves to a
configured tool `ct` and the history is nonempty, the router overrides
the decision to `"chat"` exactly under the code's condition: there are
at least 2 decision-router records among the most recent 3 history
entries and **all** of them have outcomes containing `ct`; the locally
resolved tool is dropped, but the returned `chosen_tool` /
`tool_category` fall back to their previous state values instead of
being cleared. -/
theorem decision_router_loop_guard (cfg : AgentConfig) (llm : String)
    (st : AgentState) (ct : String) (cat : Option String)
    (hmatch : findToolMatch (parseDecision llm).1 cfg.tools = some (ct, cat))
    (hne : st.action_history ≠ [])
    (hlen : 2 ≤ ((st.action_history.drop (st.action_history.length - 3)).filter
      (fun a => a.node = "DECISION_ROUTER")).length)
    (hall : ∀ a ∈ (st.action_history.drop (st.action_history.length - 3)).filter
      (fun a => a.node = "DECISION_ROUTER"), strContains a.outcome ct = true) :
    (decision_router_node cfg llm st).next_action = "chat" ∧
    (decision_router_node cfg llm st).chosen_tool = st.chosen_tool ∧
    (decision_router_node cfg llm st).tool_category = st.tool_category := by
  have hrec : st.action_history.drop (st.action_history.length - 3) ≠ [] := by
    intro hnil
    have hle := List.drop_eq_nil_iff.mp hnil
    have hpos : 0 < st.action_history.length := List.length_pos.mpr hne
    omega
  have hempty : (st.action_history.drop
      (st.action_history.length - 3)).isEmpty = false := by
    cases hcase : st.action_history.drop (st.action_history.length - 3) with
    | nil => exact absurd hcase hrec
    | cons a t => rfl
  have halltrue :
      (((st.action_history.drop (st.action_history.length - 3)).filter
        (fun a => a.node = "DECISION_ROUTER")).map ActionRecord.outcome).all
        (fun d => strContains d ct) = true := by
    rw [List.all_eq_true]
    intro d hd
    rcases List.mem_map.mp hd with ⟨a, ha, rfl⟩
    exact hall a ha
  have hlen' : decide (2 ≤
      (((st.action_history.drop (st.action_history.length - 3)).filter
        (fun a => a.node = "DECISION_ROUTER")).map ActionRecord.outcome).length)
      = true := by
    rw [List.length_map]
    exact decide_eq_true hlen
  simp only [decision_router_node]
  rw [hmatch]
  simp [hempty, hlen', halltrue, hlen, track_action, pyOr]

/-- Witness for `decision_router_loop_guard`: with the two matching
decision-router records of `st2` and a raw decision of `X`, the override
fires and the previous `chosen_tool` value survives. -/
theorem decision_router_loop_guard_witness :
    findToolMatch (parseDecision "DECISION: X - do it").1 cfgX.tools =
      some ("X", some "input") ∧
    st2.action_history ≠ [] ∧
    ((decision_router_node cfgX "DECISION: X - do it" st2).next_action = "chat" ∧
     (decision_router_node cfgX "DECISION: X - do it" st2).chosen_tool =
       st2.chosen_tool ∧
     (decision_router_node cfgX "DECISION: X - do it" st2).tool_category =
       st2.tool_category) :=
  ⟨rfl, by decide,
   decision_router_loop_guard cfgX "DECISION: X - do it" st2 "X" (some "input")
     rfl (by decide) (by decide) (by decide)⟩

/-- C6 counterexample: the structured extractor node is a
structured-extraction call with **no** second tier — when the primary
JSON-mode parse fails it sets the extraction to the empty map
immediately, so a successful alternate completion (which the spec's
protocol would use) is never consulted: on the same failure input the
code produces `{}` where the spec protocol produces the alternate's
parse. -/
theorem structured_extractor_single_tier :
    (structured_extractor_node cfgX none stC6).map AgentState.extracted_data =
      .ok ([] : StrDict) ∧
    (specThreeTier none (some altC6) ([] : StrDict)).1 = altC6 ∧
    altC6 ≠ ([] : StrDict) := by
  refine ⟨rfl, rfl, by decide⟩

/-- C6 (amended): `generate_questions` implements the full three-tier
degrade — a parsed JSON-mode completion is returned as-is, a failed
primary retries exactly once with the alternate completion on the same
prompt, and a double failure returns the deterministic canned questions
flagged `fallback = true`, matching the spec's protocol tier for tier
and never propagating a parse exception (the model is total).  The
structured extractor node instead degrades in a single step: on a
primary parse failure it contributes no extracted data at all (its only
uncaught exception is the index error on an empty prompt-spec list). -/
theorem generate_questions_three_tier :
    (∀ lang qs alt, generate_questions lang (some qs) alt =
      { success := true, questions := qs, language := lang }) ∧
    (∀ lang qs, generate_questions lang none (some qs) =
      { success := true, questions := qs, language := lang }) ∧
    (∀ lang, generate_questions lang none none =
      { success := true, questions := fallback_questions lang
        language := lang, fallback := true }) ∧
    (∀ lang p alt,
      (generate_questions lang p alt).questions =
        (specThreeTier p alt (fallback_questions lang)).1 ∧
      (generate_questions lang p alt).fallback =
        (specThreeTier p alt (fallback_questions lang)).2) ∧
    (∀ cfg st, structured_extractor_node cfg none st =
        .error "IndexError: list index out of range" ∨
      (structured_extractor_node cfg none st).map AgentState.extracted_data =
        .ok st.extracted_data) := by
  refine ⟨fun _ _ _ => rfl, fun _ _ => rfl, fun _ => rfl, ?_, ?_⟩
  · intro lang p alt
    cases p <;> cases alt <;> exact ⟨rfl, rfl⟩
  · intro cfg st
    unfold structured_extractor_node
    dsimp only
    split
    · right; rfl
    · split
      · split
        · right; rfl
        · split
          · left; rfl
          · right; rfl
      · right; rfl

theorem dictGet_dictSet_ne (d : StrDict) (k k' : String) (v : PyVal)
    (h : k' ≠ k) : dictGet (dictSet d k v) k' = dictGet d k' := by
  induction d with
  | nil => simp [dictSet, dictGet, h, Ne.symm h]
  | cons kv t ih =>
      by_cases hk : kv.1 = k
      · subst hk
        simp [dictSet, dictGet, Ne.symm h, h]
      · simp [dictSet, dictGet, hk]
        by_cases hk' : kv.1 = k'
        · simp [hk']
        · simp [hk', ih]

theorem mergeFill_keeps (old : StrDict) (extracted : List (String × PyVal))
    (k : String) (v : PyVal) (hv : pyTruthy v = true)
    (h : dictGet old k = some v) :
    dictGet (mergeFill old extracted) k = some v := by
  induction extracted generalizing old with
  | nil => exact h
  | cons kv rest ih =>
      show dictGet (mergeFill _ rest) k = some v
      apply ih
      by_cases hk : kv.1 = k
      · subst hk
        simp only [mergeFill, List.foldl_cons, h, hv]
        exact h
      · simp only [mergeFill, List.foldl_cons]
        cases hov : dictGet old kv.1 with
        | none => rw [dictGet_dictSet_ne _ _ _ _ (fun he => hk he.symm)]; exact h
        | some ov =>
            by_cases htr : pyTruthy ov
            · simp [htr]; exact h
            · simp [htr]
              rw [dictGet_dictSet_ne _ _ _ _ (fun he => hk he.symm)]
              exact h

theorem dictUpdate_not_mem (d upd : StrDict) (k : String)
    (h : k ∉ dictKeys upd) :
    dictGet (dictUpdate d upd) k = dictGet d k := by
  induction upd generalizing d with
  | nil => rfl
  | cons kv rest ih =>
      have hk : kv.1 ≠ k := by
        intro he
        exact h (by simp [dictKeys, he])
      have hrest : k ∉ dictKeys rest := by
        intro hmem
        exact h (by simp [dictKeys] at hmem ⊢; exact Or.inr hmem)
      show dictGet (dictUpdate (dictSet d kv.1 kv.2) rest) k = dictGet d k
      rw [ih _ hrest, dictGet_dictSet_ne _ _ _ _ (fun he => hk he.symm)]

/-- C9: the extraction/validation merge policy.  The structured
extractor never overwrites a key that already holds a truthy value
(fill-if-absent-or-falsy), and the validator's merge only touches keys
explicitly present in the validated output — any other key keeps its
previous value. -/
theorem extracted_data_merge_invariant :
    (∀ cfg jsonResult st k v res,
      dictGet st.extracted_data k = some v → pyTruthy v = true →
      structured_extractor_node cfg jsonResult st = .ok res →
      dictGet res.extracted_data k = some v) ∧
    (∀ prims cfg st k,
      k ∉ dictKeys (validate_against_schema prims st.extracted_data
        (selectedSchema cfg st)).1 →
      dictGet (validate_inputs_node prims cfg st).extracted_data k =
        dictGet st.extracted_data k) := by
  constructor
  · intro cfg jsonResult st k v res hget htr hok
    unfold structured_extractor_node at hok
    dsimp only at hok
    split at hok
    · injection hok with h; subst h; exact hget
    · split at hok
      · split at hok
        · injection hok with h; subst h; exact hget
        · split at hok
          · exact Except.noConfusion hok
          · injection hok with h; subst h; exact hget
      · injection hok with h; subst h
        exact mergeFill_keeps _ _ k v htr hget
  · intro prims cfg st k hmem
    unfold validate_inputs_node
    dsimp only
    split
    · rfl
    · exact dictUpdate_not_mem _ _ k hmem

/-- Witness for `extracted_data_merge_invariant`: with no schema, the
validated map is empty, so an unrelated key keeps its value through the
validator merge. -/
theorem extracted_data_merge_invariant_witness :
    ("extra" ∉ dictKeys (validate_against_schema prims0
      ({ st0 with extracted_data := [("extra", PyVal.vstr "keep")] }).extracted_data
      (selectedSchema cfgX
        { st0 with extracted_data := [("extra", PyVal.vstr "keep")] })).1) ∧
    dictGet (validate_inputs_node prims0 cfgX
      { st0 with extracted_data := [("extra", PyVal.vstr "keep")] }).extracted_data
      "extra" =
    dictGet ({ st0 with
      extracted_data := [("extra", PyVal.vstr "keep")] }).extracted_data "extra" :=
  ⟨by decide,
   extracted_data_merge_invariant.2 prims0 cfgX
     { st0 with extracted_data := [("extra", PyVal.vstr "keep")] } "extra"
     (by decide)⟩

/-- A configuration whose only tool is disabled. -/
def cfgDisabled : AgentConfig :=
  { tools := [{ toolX with enabled := false }], tool_type := some "ghost"
    credentials_path := none, exit_conditions := [], exit_condition_mode := none }

/-- C10 counterexample: when no enabled tool exists at all — the empty
tool list or an all-disabled one — `get_selected_tool_config` does not
return "the first enabled tool and its configuration entry": it returns
the unresolved preferred name with no tool entry. -/
theorem get_selected_tool_config_no_enabled_tool :
    get_selected_tool_config cfgEmpty stGhost = ("ghost", none) ∧
    (get_selected_tool_config cfgDisabled stGhost).2 = none := by
  exact ⟨rfl, rfl⟩

theorem findNamedEnabled_eq_none (p : String) (l : List ToolCfg)
    (h : ∀ t ∈ l, t.enabled = true → t.name ≠ some p) :
    findNamedEnabled p l = none := by
  induction l with
  | nil => rfl
  | cons t rest ih =>
      have hrest : findNamedEnabled p rest = none :=
        ih (fun u hu => h u (List.mem_cons_of_mem t hu))
      unfold findNamedEnabled
      by_cases hnm : t.name = some p
      · have hen : t.enabled = false := by
          cases hent : t.enabled
          · rfl
          · exact absurd hnm (h t (List.mem_cons_self t rest) hent)
        simp [hnm, hen, hrest]
      · simp [hnm, hrest]

/-- C10 (amended): when neither `chosen_tool` nor `next_action` nor the
legacy `tool_type` names an enabled configured tool **and at least one
enabled tool exists**, `get_selected_tool_config` silently falls back to
the first enabled tool and its entry, and the extractor/validator stages
then resolve their schema from that tool; with no enabled tool the
function instead returns the unresolved name with no entry (see the
counterexample). -/
theorem first_enabled_tool_fallback (cfg : AgentConfig) (st : AgentState)
    (t0 : ToolCfg)
    (hfirst : cfg.tools.find? (fun t => t.enabled) = some t0)
    (hmiss : ∀ t ∈ cfg.tools, t.enabled = true →
      t.name ≠ some st.chosen_tool ∧ t.name ≠ some st.next_action ∧
      (∀ s, cfg.tool_type = some s → t.name ≠ some s)) :
    get_selected_tool_config cfg st = (t0.name.getD "", some t0) ∧
    selectedSchema cfg st = normalize_input_schema t0.input_schema := by
  have hnone : (if pyOr st.chosen_tool
        (pyOr st.next_action (cfg.tool_type.getD "")) ≠ "" then
      findNamedEnabled
        (pyOr st.chosen_tool (pyOr st.next_action (cfg.tool_type.getD "")))
        cfg.tools
    else none) = none := by
    by_cases hp : pyOr st.chosen_tool (pyOr st.next_action (cfg.tool_type.getD ""))
        = ""
    · simp [hp]
    · rw [if_pos hp]
      apply findNamedEnabled_eq_none
      intro t ht hen
      by_cases h1 : st.chosen_tool = ""
      · by_cases h2 : st.next_action = ""
        · cases htt : cfg.tool_type with
          | none => exact absurd (by simp [pyOr, h1, h2, htt]) hp
          | some s =>
              have hval : pyOr st.chosen_tool
                  (pyOr st.next_action ((some s).getD "")) = s := by
                simp [pyOr, h1, h2]
              rw [hval]
              exact (hmiss t ht hen).2.2 s htt
        · have hval : pyOr st.chosen_tool
              (pyOr st.next_action (cfg.tool_type.getD "")) = st.next_action := by
            simp [pyOr, h1, h2]
          rw [hval]
          exact (hmiss t ht hen).2.1
      · have hval : pyOr st.chosen_tool
            (pyOr st.next_action (cfg.tool_type.getD "")) = st.chosen_tool := by
          simp [pyOr, h1]
        rw [hval]
        exact (hmiss t ht hen).1
  have hmain : get_selected_tool_config cfg st = (t0.name.getD "", some t0) := by
    unfold get_selected_tool_config
    dsimp only
    rw [hnone, hfirst]
  refine ⟨hmain, ?_⟩
  unfold selectedSchema
  rw [hmain]

/-- Witness for `first_enabled_tool_fallback`: a state naming a ghost
tool falls back to the single enabled tool `X` and its (absent) schema. -/
theorem first_enabled_tool_fallback_witness :
    cfgX.tools.find? (fun t => t.enabled) = some toolX ∧
    (get_selected_tool_config cfgX stGhost = ("X", some toolX) ∧
     selectedSchema cfgX stGhost = normalize_input_schema toolX.input_schema) :=
  ⟨rfl, by
    have h := first_enabled_tool_fallback cfgX stGhost toolX rfl
      (by
        intro t ht hen
        have ht2 : t = toolX := by simpa [cfgX] using ht
        subst ht2
        refine ⟨by decide, by decide, ?_⟩
        intro s hs
        simp [cfgX] at hs)
    simpa using h⟩

/-- C3 counterexample: the API-retrieval tool's envelope for a completed
HTTP request with a non-2xx status has `success = false` but **no**
`error` field at all (the envelope carries the status in its summary
instead). -/
theorem api_retrieval_failure_without_error :
    (api_retrieval_tool rcApi (.completed 500) [("query", "q")]).success =
      false ∧
    (api_retrieval_tool rcApi (.completed 500) [("query", "q")]).error =
      none := by
  exact ⟨rfl, rfl⟩

/-- All exception messages occurring in a sheets world are non-empty
(Python `str(e)` of the raised exceptions). -/
def sheetsWorldMsgs (w : SheetsWorld) : Prop :=
  (∀ e, w.auth = .clientErr e → e ≠ "") ∧
  (∀ e, w.openSheet = .error e → e ≠ "") ∧
  (∀ e, w.worksheet = .error e → e ≠ "") ∧
  (∀ e, w.append = .error e → e ≠ "")

theorem sheets_tool_error_nonempty (cfg : RuntimeCfg) (w : SheetsWorld)
    (data : StrMap) (hw : sheetsWorldMsgs w) :
    (sheets_tool cfg w data).success = false →
    ∃ e, (sheets_tool cfg w data).error = some e ∧ e ≠ "" := by
  rcases hw with ⟨ha, ho, hk, hp⟩
  unfold sheets_tool
  split
  · exact fun _ => ⟨"Incomplete data", rfl, by decide⟩
  · split
    · exact fun _ => ⟨"Missing sheet configuration", rfl, by decide⟩
    · split
      · exact fun _ => ⟨"Missing spreadsheet_title", rfl, by decide⟩
      · split
        · exact fun _ => ⟨"Missing worksheet_name", rfl, by decide⟩
        · split
          · exact fun _ => ⟨"Missing credentials_path", rfl, by decide⟩
          · split
            · exact fun _ => ⟨"Credentials file not found", rfl, by decide⟩
            · exact fun _ => ⟨"Missing dependencies", rfl, by decide⟩
            · rename_i e heq
              exact fun _ => ⟨e, rfl, ha e heq⟩
            · split
              · rename_i e heq
                exact fun _ => ⟨e, rfl, ho e heq⟩
              · split
                · rename_i e heq
                  exact fun _ => ⟨e, rfl, hk e heq⟩
                · split
                  · exact fun h => by simp at h
                  · rename_i e heq
                    exact fun _ => ⟨e, rfl, hp e heq⟩

theorem web_search_tool_error_nonempty (w : WebWorld) (data : StrMap)
    (hw : ∀ e, w.search = .error e → e ≠ "") :
    (web_search_tool w data).success = false →
    ∃ e, (web_search_tool w data).error = some e ∧ e ≠ "" := by
  unfold web_search_tool
  dsimp only
  split
  · split
    · exact fun h => by simp at h
    · rename_i e heq
      exact fun _ => ⟨e, rfl, hw e heq⟩
  · exact fun _ => ⟨"Missing Tavily API key", rfl, by decide⟩

theorem email_tool_error_nonempty (cfg : RuntimeCfg) (w : EmailWorld)
    (data : StrMap) (hw : ∀ e, w.send = .error e → e ≠ "") :
    (email_tool cfg w data).success = false →
    ∃ e, (email_tool cfg w data).error = some e ∧ e ≠ "" := by
  unfold email_tool
  dsimp only
  split
  · exact fun _ => ⟨"Missing dependencies", rfl, by decide⟩
  · split
    · exact fun _ => ⟨"Missing recipient", rfl, by decide⟩
    · split
      · exact fun _ => ⟨"Incomplete configuration", rfl, by decide⟩
      · split
        · exact fun h => by simp at h
        · rename_i e heq
          exact fun _ => ⟨e, rfl, hw e heq⟩

theorem api_retrieval_tool_error_cases (cfg : RuntimeCfg) (w : ApiOutcome)
    (data : StrMap) (hw : ∀ e, w = .raised e → e ≠ "") :
    (api_retrieval_tool cfg w data).success = false →
    (∃ e, (api_retrieval_tool cfg w data).error = some e ∧ e ≠ "") ∨
    (∃ status, w = .completed status ∧ ¬(200 ≤ status ∧ status < 300) ∧
      (api_retrieval_tool cfg w data).error = none ∧
      ∃ s, (api_retrieval_tool cfg w data).summary = some s) := by
  cases w with
  | noRequests =>
      exact fun _ => Or.inl ⟨"Missing dependency: requests", rfl, by decide⟩
  | raised e =>
      unfold api_retrieval_tool
      dsimp only
      split
      · exact fun _ => Or.inl ⟨"Invalid configuration", rfl, by decide⟩
      · exact fun _ => Or.inl ⟨e, rfl, hw e rfl⟩
  | completed status =>
      unfold api_retrieval_tool
      dsimp only
      split
      · exact fun _ => Or.inl ⟨"Invalid configuration", rfl, by decide⟩
      · intro hfail
        refine Or.inr ⟨status, rfl, ?_, rfl, ⟨_, rfl⟩⟩
        simp only [decide_eq_false_iff_not] at hfail
        exact hfail

theorem execute_tool_catchall_error (tw : ToolWorlds) (tool_type : String)
    (data : StrMap) (cfg : RuntimeCfg) (h : tool_type ∉ AVAILABLE_TOOLS) :
    (execute_tool tw tool_type data cfg).error = some "'generic'" := by
  simp only [AVAILABLE_TOOLS, List.mem_cons, List.mem_singleton,
    List.not_mem_nil, or_false, not_or] at h
  obtain ⟨h1, h2, h3, h4⟩ := h
  unfold execute_tool
  rw [if_neg h1, if_neg (by simp [h2, h3]), if_neg h4]

/-- C3 (amended): every failure envelope produced by a registered tool
function carries a populated, non-empty `error` string (given that the
underlying raised exceptions stringify to non-empty text), and the
executor's catch-all does too — **except** the API-retrieval tool's
envelope for a completed HTTP request with non-2xx status, which has no
`error` field and reports through its `summary` instead. -/
theorem tool_result_error_invariant :
    (∀ cfg w data, sheetsWorldMsgs w →
      (sheets_tool cfg w data).success = false →
      ∃ e, (sheets_tool cfg w data).error = some e ∧ e ≠ "") ∧
    (∀ w data, (∀ e, WebWorld.search w = .error e → e ≠ "") →
      (web_search_tool w data).success = false →
      ∃ e, (web_search_tool w data).error = some e ∧ e ≠ "") ∧
    (∀ cfg w data, (∀ e, EmailWorld.send w = .error e → e ≠ "") →
      (email_tool cfg w data).success = false →
      ∃ e, (email_tool cfg w data).error = some e ∧ e ≠ "") ∧
    (∀ cfg w data, (∀ e, w = ApiOutcome.raised e → e ≠ "") →
      (api_retrieval_tool cfg w data).success = false →
      (∃ e, (api_retrieval_tool cfg w data).error = some e ∧ e ≠ "") ∨
      (∃ status, w = .completed status ∧ ¬(200 ≤ status ∧ status < 300) ∧
        (api_retrieval_tool cfg w data).error = none ∧
        ∃ s, (api_retrieval_tool cfg w data).summary = some s)) ∧
    (∀ tw tool_type data cfg, tool_type ∉ AVAILABLE_TOOLS →
      (execute_tool tw tool_type data cfg).error = some "'generic'" ∧
      ("'generic'" : String) ≠ "") :=
  ⟨sheets_tool_error_nonempty, web_search_tool_error_nonempty,
   email_tool_error_nonempty, api_retrieval_tool_error_cases,
   fun tw ty data cfg h => ⟨execute_tool_catchall_error tw ty data cfg h,
     by decide⟩⟩

/-- Runtime configuration whose required fields cannot be satisfied by
an empty data map. -/
def rcIncomplete : RuntimeCfg :=
  { rc0 with required_fields := [{ key := some "f", name := none, validate := none }] }

/-- Witness for `tool_result_error_invariant`: the sheets tool on an
incomplete data map fails with the non-empty error `Incomplete data`. -/
theorem tool_result_error_invariant_witness :
    sheetsWorldMsgs tw0.sheets ∧
    (sheets_tool rcIncomplete tw0.sheets []).success = false ∧
    (∃ e, (sheets_tool rcIncomplete tw0.sheets []).error = some e ∧ e ≠ "") :=
  ⟨⟨fun _ h => SheetsAuth.noConfusion h, fun _ h => Except.noConfusion h,
    fun _ h => Except.noConfusion h, fun _ h => Except.noConfusion h⟩,
   rfl,
   tool_result_error_invariant.1 rcIncomplete tw0.sheets []
     ⟨fun _ h => SheetsAuth.noConfusion h, fun _ h => Except.noConfusion h,
      fun _ h => Except.noConfusion h, fun _ h => Except.noConfusion h⟩
     rfl⟩

/-! ### Validator contract infrastructure (C4) -/

/-- The value `data.get(field.get("name"))` a field sees. -/
def fieldVal (data : StrDict) (f : SchemaField) : Option PyVal :=
  match f.name with
  | none => none
  | some nm => dictGet data nm

/-- The three legitimate sources of a validation error string: a missing
required field, a failed numeric coercion, or a failed email format
check. -/
def errForm (prims : NumPrims) (data : StrDict) (f : SchemaField)
    (e : String) : Prop :=
  (f.required = true ∧ isMissingVal (fieldVal data f) = true ∧
    e = errName f.name ++ " is required") ∨
  (∃ nm v, f.name = some nm ∧ dictGet data nm = some v ∧
    isMissingVal (some v) = false ∧ coerceVal prims f.ftype v = none ∧
    e = nm ++ " failed to coerce to " ++ f.ftype) ∨
  (∃ nm v w, f.name = some nm ∧ dictGet data nm = some v ∧
    isMissingVal (some v) = false ∧ coerceVal prims f.ftype v = some w ∧
    f.format = some "email" ∧ emailMatch (pyStr prims w) = false ∧
    e = nm ++ " must be a valid email")

theorem dictGet_dictSet_self (d : StrDict) (k : String) (v : PyVal) :
    dictGet (dictSet d k v) k = some v := by
  induction d with
  | nil => simp [dictSet, dictGet]
  | cons kv t ih =>
      by_cases hk : kv.1 = k
      · subst hk; simp [dictSet, dictGet]
      · simp [dictSet, dictGet, hk, ih]

theorem runSchema_append (prims : NumPrims) (data : StrDict)
    (xs ys : List SchemaField) (acc : StrDict × List String) :
    runSchema prims data (xs ++ ys) acc =
      runSchema prims data ys (runSchema prims data xs acc) := by
  induction xs generalizing acc with
  | nil => rfl
  | cons f rest ih =>
      show runSchema prims data (rest ++ ys) (validateField prims data acc f) = _
      exact ih _

theorem validateField_errors_extend (prims : NumPrims) (data : StrDict)
    (acc : StrDict × List String) (f : SchemaField) :
    ∃ tail, (validateField prims data acc f).2 = acc.2 ++ tail := by
  unfold validateField
  split
  · split
    · exact ⟨_, rfl⟩
    · exact ⟨[], (List.append_nil _).symm⟩
  · dsimp only
    split
    · split
      · exact ⟨_, rfl⟩
      · exact ⟨[], (List.append_nil _).symm⟩
    · split
      · exact ⟨[], (List.append_nil _).symm⟩
      · split
        · exact ⟨_, rfl⟩
        · split
          · exact ⟨_, rfl⟩
          · exact ⟨[], (List.append_nil _).symm⟩

theorem validateField_frame (prims : NumPrims) (data : StrDict)
    (acc : StrDict × List String) (f : SchemaField) (nm : String)
    (h : f.name ≠ some nm) :
    dictGet (validateField prims data acc f).1 nm = dictGet acc.1 nm := by
  unfold validateField
  split
  · split <;> rfl
  · rename_i nm' hname
    have hne : nm' ≠ nm := fun he => h (by rw [hname, he])
    dsimp only
    split
    · split <;> rfl
    · split
      · rfl
      · split
        · rfl
        · split
          · rfl
          · exact dictGet_dictSet_ne _ _ _ _ (Ne.symm hne)

theorem runSchema_errors_mono (prims : NumPrims) (data : StrDict)
    (rest : List SchemaField) (acc : StrDict × List String) (e : String)
    (h : e ∈ acc.2) : e ∈ (runSchema prims data rest acc).2 := by
  induction rest generalizing acc with
  | nil => exact h
  | cons f fs ih =>
      show e ∈ (runSchema prims data fs (validateField prims data acc f)).2
      apply ih
      obtain ⟨tail, htail⟩ := validateField_errors_extend prims data acc f
      rw [htail]
      exact List.mem_append_left _ h

theorem runSchema_frame (prims : NumPrims) (data : StrDict)
    (rest : List SchemaField) (acc : StrDict × List String) (nm : String)
    (h : ∀ f ∈ rest, f.name ≠ some nm) :
    dictGet (runSchema prims data rest acc).1 nm = dictGet acc.1 nm := by
  induction rest generalizing acc with
  | nil => rfl
  | cons f fs ih =>
      show dictGet (runSchema prims data fs (validateField prims data acc f)).1 nm
        = dictGet acc.1 nm
      rw [ih _ (fun g hg => h g (List.mem_cons_of_mem f hg))]
      exact validateField_frame prims data acc f nm
        (h f (List.mem_cons_self f fs))

theorem validateField_errors_source (prims : NumPrims) (data : StrDict)
    (acc : StrDict × List String) (f : SchemaField) (e : String)
    (h : e ∈ (validateField prims data acc f).2) :
    e ∈ acc.2 ∨ errForm prims data f e := by
  unfold validateField at h
  split at h
  · rename_i hname
    split at h
    · rename_i hreq
      rcases List.mem_append.mp h with h1 | h1
      · exact Or.inl h1
      · refine Or.inr (Or.inl ⟨hreq, ?_, ?_⟩)
        · simp [fieldVal, hname, isMissingVal]
        · rw [hname]
          simpa using h1
    · exact Or.inl h
  · rename_i nm hname
    dsimp only at h
    split at h
    · rename_i hmiss
      split at h
      · rename_i hreq
        rcases List.mem_append.mp h with h1 | h1
        · exact Or.inl h1
        · refine Or.inr (Or.inl ⟨hreq, ?_, ?_⟩)
          · simpa [fieldVal, hname] using hmiss
          · rw [hname]
            simpa using h1
      · exact Or.inl h
    · rename_i hmiss
      split at h
      · exact Or.inl h
      · rename_i v hv
        split at h
        · rename_i hc
          rcases List.mem_append.mp h with h1 | h1
          · exact Or.inl h1
          · refine Or.inr (Or.inr (Or.inl ⟨nm, v, hname, hv, ?_, hc, by simpa using h1⟩))
            rw [hv] at hmiss
            simpa using hmiss
        · rename_i w hc
          split at h
          · rename_i hfmt
            rcases List.mem_append.mp h with h1 | h1
            · exact Or.inl h1
            · rw [Bool.and_eq_true, decide_eq_true_eq, Bool.not_eq_true'] at hfmt
              refine Or.inr (Or.inr (Or.inr ⟨nm, v, w, hname, hv, ?_, hc,
                hfmt.1, hfmt.2, by simpa using h1⟩))
              rw [hv] at hmiss
              simpa using hmiss
          · exact Or.inl h

theorem runSchema_errors_source (prims : NumPrims) (data : StrDict)
    (rest : List SchemaField) (acc : StrDict × List String) (e : String)
    (h : e ∈ (runSchema prims data rest acc).2) :
    e ∈ acc.2 ∨ ∃ f ∈ rest, errForm prims data f e := by
  induction rest generalizing acc with
  | nil => exact Or.inl h
  | cons f fs ih =>
      rcases ih (validateField prims data acc f) h with h1 | ⟨g, hg, hgf⟩
      · rcases validateField_errors_source prims data acc f e h1 with h2 | h2
        · exact Or.inl h2
        · exact Or.inr ⟨f, List.mem_cons_self f fs, h2⟩
      · exact Or.inr ⟨g, List.mem_cons_of_mem f hg, hgf⟩

theorem validateField_missing_required (prims : NumPrims) (data : StrDict)
    (acc : StrDict × List String) (f : SchemaField)
    (hreq : f.required = true) (hmiss : isMissingVal (fieldVal data f) = true) :
    validateField prims data acc f =
      (acc.1, acc.2 ++ [errName f.name ++ " is required"]) := by
  unfold validateField
  cases hname : f.name with
  | none => simp [hreq, errName]
  | some nm =>
      have hm : isMissingVal (dictGet data nm) = true := by
        unfold fieldVal at hmiss
        rw [hname] at hmiss
        exact hmiss
      simp [hm, hreq, errName]

theorem validateField_missing_keeps (prims : NumPrims) (data : StrDict)
    (acc : StrDict × List String) (f : SchemaField) (nm : String)
    (hname : f.name = some nm)
    (hmiss : isMissingVal (dictGet data nm) = true) :
    (validateField prims data acc f).1 = acc.1 := by
  unfold validateField
  rw [hname]
  dsimp only
  rw [hmiss, if_pos rfl]
  split <;> rfl

theorem validateField_coerce_fail (prims : NumPrims) (data : StrDict)
    (acc : StrDict × List String) (f : SchemaField) (nm : String) (v : PyVal)
    (hname : f.name = some nm) (hv : dictGet data nm = some v)
    (hmiss : isMissingVal (some v) = false)
    (hc : coerceVal prims f.ftype v = none) :
    validateField prims data acc f =
      (acc.1, acc.2 ++ [nm ++ " failed to coerce to " ++ f.ftype]) := by
  unfold validateField
  rw [hname]
  dsimp only
  simp [hv, hmiss, hc]

theorem validateField_insert (prims : NumPrims) (data : StrDict)
    (acc : StrDict × List String) (f : SchemaField) (nm : String)
    (v w : PyVal)
    (hname : f.name = some nm) (hv : dictGet data nm = some v)
    (hmiss : isMissingVal (some v) = false)
    (hc : coerceVal prims f.ftype v = some w)
    (hfmt : f.format = some "email" → emailMatch (pyStr prims w) = true) :
    validateField prims data acc f = (dictSet acc.1 nm w, acc.2) := by
  unfold validateField
  rw [hname]
  dsimp only
  have hcond : (decide (f.format = some "email") &&
      !emailMatch (pyStr prims w)) = false := by
    by_cases hf : f.format = some "email"
    · simp [hf, hfmt hf]
    · simp [hf]
  simp [hv, hmiss, hc, hcond]

theorem validateField_email_fail (prims : NumPrims) (data : StrDict)
    (acc : StrDict × List String) (f : SchemaField) (nm : String)
    (v w : PyVal)
    (hname : f.name = some nm) (hv : dictGet data nm = some v)
    (hmiss : isMissingVal (some v) = false)
    (hc : coerceVal prims f.ftype v = some w)
    (hf : f.format = some "email") (hem : emailMatch (pyStr prims w) = false) :
    validateField prims data acc f =
      (acc.1, acc.2 ++ [nm ++ " must be a valid email"]) := by
  unfold validateField
  rw [hname]
  dsimp only
  simp [hv, hmiss, hc, hf, hem]

theorem nodup_names_split (schema l1 l2 : List SchemaField) (f : SchemaField)
    (nm : String) (hs : schema = l1 ++ f :: l2) (hname : f.name = some nm)
    (hnd : (schema.filterMap SchemaField.name).Nodup) :
    (∀ g ∈ l1, g.name ≠ some nm) ∧ (∀ g ∈ l2, g.name ≠ some nm) := by
  subst hs
  rw [List.filterMap_append] at hnd
  have hcons : List.filterMap SchemaField.name (f :: l2) =
      nm :: List.filterMap SchemaField.name l2 := by
    simp [List.filterMap_cons, hname]
  rw [hcons] at hnd
  have hparts := List.nodup_append.mp hnd
  constructor
  · intro g hg he
    have hmemA : nm ∈ l1.filterMap SchemaField.name :=
      List.mem_filterMap.mpr ⟨g, hg, he⟩
    exact hparts.2.2 hmemA (List.mem_cons_self _ _)
  · intro g hg he
    have hmemB : nm ∈ l2.filterMap SchemaField.name :=
      List.mem_filterMap.mpr ⟨g, hg, he⟩
    exact (List.nodup_cons.mp hparts.2.1).1 hmemB

/-- C4: the validator contract.  Over a schema with distinct field
names: a required missing/blank field contributes exactly the error
`<name> is required`; a present field whose int/float coercion raises
contributes exactly `<name> failed to coerce to <type>` and is absent
from `validated`; a present string-typed field is stored trimmed; a
field with format `email` whose coerced value fails `EMAIL_REGEX` yields
a format error and is dropped; absent fields (required or not) never
appear in `validated`; and every error in the output arises from one of
those three sources — in particular non-required absent fields are
silently omitted with no error.  The embedding is a total function, so
no input raises. -/
theorem validate_against_schema_contract (prims : NumPrims) (data : StrDict)
    (schema : List SchemaField)
    (hnd : (schema.filterMap SchemaField.name).Nodup) :
    (∀ f ∈ schema, f.required = true → isMissingVal (fieldVal data f) = true →
      errName f.name ++ " is required" ∈
        (validate_against_schema prims data schema).2) ∧
    (∀ f ∈ schema, ∀ nm v, f.name = some nm → dictGet data nm = some v →
      isMissingVal (some v) = false → coerceVal prims f.ftype v = none →
      (nm ++ " failed to coerce to " ++ f.ftype) ∈
        (validate_against_schema prims data schema).2 ∧
      dictGet (validate_against_schema prims data schema).1 nm = none) ∧
    (∀ f ∈ schema, ∀ nm v, f.name = some nm → dictGet data nm = some v →
      isMissingVal (some v) = false → f.ftype = "string" →
      (f.format = some "email" → emailMatch (pyStrip (pyStr prims v)) = true) →
      dictGet (validate_against_schema prims data schema).1 nm =
        some (PyVal.vstr (pyStrip (pyStr prims v)))) ∧
    (∀ f ∈ schema, ∀ nm v w, f.name = some nm → dictGet data nm = some v →
      isMissingVal (some v) = false → coerceVal prims f.ftype v = some w →
      f.format = some "email" → emailMatch (pyStr prims w) = false →
      (nm ++ " must be a valid email") ∈
        (validate_against_schema prims data schema).2 ∧
      dictGet (validate_against_schema prims data schema).1 nm = none) ∧
    (∀ f ∈ schema, ∀ nm, f.name = some nm →
      isMissingVal (dictGet data nm) = true →
      dictGet (validate_against_schema prims data schema).1 nm = none) ∧
    (∀ e ∈ (validate_against_schema prims data schema).2,
      ∃ f ∈ schema, errForm prims data f e) := by
  have hdecomp : ∀ (l1 l2 : List SchemaField) (f : SchemaField),
      schema = l1 ++ f :: l2 →
      validate_against_schema prims data schema =
        runSchema prims data l2
          (validateField prims data (runSchema prims data l1 ([], [])) f) := by
    intro l1 l2 f hs
    unfold validate_against_schema
    rw [hs, runSchema_append]
    rfl
  refine ⟨?_, ?_, ?_, ?_, ?_, ?_⟩
  · intro f hf hreq hmiss
    obtain ⟨l1, l2, hs⟩ := List.append_of_mem hf
    rw [hdecomp l1 l2 f hs]
    apply runSchema_errors_mono
    rw [validateField_missing_required prims data _ f hreq hmiss]
    exact List.mem_append_right _ (List.mem_singleton.mpr rfl)
  · intro f hf nm v hname hv hmiss hc
    obtain ⟨l1, l2, hs⟩ := List.append_of_mem hf
    obtain ⟨h1, h2⟩ := nodup_names_split schema l1 l2 f nm hs hname hnd
    rw [hdecomp l1 l2 f hs]
    constructor
    · apply runSchema_errors_mono
      rw [validateField_coerce_fail prims data _ f nm v hname hv hmiss hc]
      exact List.mem_append_right _ (List.mem_singleton.mpr rfl)
    · rw [runSchema_frame prims data l2 _ nm h2]
      rw [validateField_coerce_fail prims data _ f nm v hname hv hmiss hc]
      rw [runSchema_frame prims data l1 _ nm h1]
      rfl
  · intro f hf nm v hname hv hmiss hstr hfmt
    obtain ⟨l1, l2, hs⟩ := List.append_of_mem hf
    obtain ⟨h1, h2⟩ := nodup_names_split schema l1 l2 f nm hs hname hnd
    rw [hdecomp l1 l2 f hs]
    have hc : coerceVal prims f.ftype v =
        some (PyVal.vstr (pyStrip (pyStr prims v))) := by
      rw [hstr]
      rfl
    rw [runSchema_frame prims data l2 _ nm h2]
    rw [validateField_insert prims data _ f nm v _ hname hv hmiss hc hfmt]
    exact dictGet_dictSet_self _ nm _
  · intro f hf nm v w hname hv hmiss hc hfm hem
    obtain ⟨l1, l2, hs⟩ := List.append_of_mem hf
    obtain ⟨h1, h2⟩ := nodup_names_split schema l1 l2 f nm hs hname hnd
    rw [hdecomp l1 l2 f hs]
    constructor
    · apply runSchema_errors_mono
      rw [validateField_email_fail prims data _ f nm v w hname hv hmiss hc hfm hem]
      exact List.mem_append_right _ (List.mem_singleton.mpr rfl)
    · rw [runSchema_frame prims data l2 _ nm h2]
      rw [validateField_email_fail prims data _ f nm v w hname hv hmiss hc hfm hem]
      rw [runSchema_frame prims data l1 _ nm h1]
      rfl
  · intro f hf nm hname hmiss
    obtain ⟨l1, l2, hs⟩ := List.append_of_mem hf
    obtain ⟨h1, h2⟩ := nodup_names_split schema l1 l2 f nm hs hname hnd
    rw [hdecomp l1 l2 f hs]
    rw [runSchema_frame prims data l2 _ nm h2]
    rw [validateField_missing_keeps prims data _ f nm hname hmiss]
    rw [runSchema_frame prims data l1 _ nm h1]
    rfl
  · intro e he
    rcases runSchema_errors_source prims data schema ([], []) e he with h1 | h1
    · exact absurd h1 (List.not_mem_nil e)
    · exact h1

/-- Schema fixture for the validator witness. -/
def schemaW : List SchemaField :=
  [{ name := some "name", required := true, ftype := "string", format := none },
   { name := some "age", required := false, ftype := "int", format := none }]

/-- Data fixture for the validator witness. -/
def dataW : StrDict := [("age", PyVal.vstr "abc")]

/-- Witness for `validate_against_schema_contract`: the missing required
field reports `name is required`, and the uncoercible `age` is reported
and dropped. -/
theorem validate_against_schema_contract_witness :
    (schemaW.filterMap SchemaField.name).Nodup ∧
    ("name" ++ " is required") ∈ (validate_against_schema prims0 dataW schemaW).2 ∧
    (("age" ++ " failed to coerce to " ++ "int") ∈
      (validate_against_schema prims0 dataW schemaW).2 ∧
     dictGet (validate_against_schema prims0 dataW schemaW).1 "age" = none) :=
  ⟨by decide,
   (validate_against_schema_contract prims0 dataW schemaW (by decide)).1
     { name := some "name", required := true, ftype := "string", format := none }
     (by decide) rfl (by decide),
   (validate_against_schema_contract prims0 dataW schemaW (by decide)).2.1
     { name := some "age", required := false, ftype := "int", format := none }
     (by decide) "age" (PyVal.vstr "abc") rfl rfl (by decide) (by decide)⟩

end DragDrop
